import Mathlib

/-!
# stockWatcher: monitor, fetcher and configuration loading

A shallow embedding of `internal/monitor/monitor.go`, `internal/monitor/fetcher.go`,
`internal/models/stock.go` and `internal/config/config.go`.

Modelling conventions

* A `float64` is a `Float64`: a finite value (a rational, meant to be one a double can
  hold), an infinity or NaN. Every arithmetic operation computes the exact result and
  rounds it to the nearest double, ties to even, overflowing to an infinity and
  underflowing through the subnormal range, as IEEE 754 binary64 does. The two zeros are
  one value: the program compares floats and divides only by values it has compared with
  0 or that cannot be 0, so the sign of a zero is not observable; a division of a non-zero
  value by the zero gives the infinity with the sign of the dividend.
* `math.Abs`, `math.Max` and `math.Min` are `Float64.abs`, `Float64.max` and
  `Float64.min`, with the special cases of the Go library.
* `time.Time` is the number of nanoseconds elapsed since the zero instant, so
  `IsZero` is "equal to 0"; `time.Duration` is an `Int` number of nanoseconds and
  `Time.Sub` saturates at the `int64` range as the Go library does.
* The wall clock read by `time.Now()` inside `isWithinAlertWindow`, the fetch
  outcome and the notifier are inputs of a tick.
* Go run-time panics (nil dereference, closing a closed channel, index out of
  range) are results of type `Fault` in `Except`.
* A tick returns the new monitor together with the list of calls it made
  (`Event`), so that "the notifier is invoked" is observable.
-/

namespace StockWatcher

/-! ## float64 -/

/-- A `float64` value. -/
inductive Float64 where
  | finite (q : ℚ)
  | inf (negative : Bool)
  | nan
deriving DecidableEq

namespace Float64

instance : Zero Float64 := ⟨finite 0⟩

/-- Rounding of a rational to the nearest integer, ties to the even one. -/
def roundHalfEven (x : ℚ) : Int :=
  let f := ⌊x⌋
  let d := x - f
  if d < 1 / 2 then f
  else if 1 / 2 < d then f + 1
  else if f % 2 = 0 then f
  else f + 1

/-- Rounding of an exact result to binary64: 53 significant bits, ties to even, exponent
at least `-1022` (below that the spacing stays `2 ^ (-1074)`), and an infinity once the
rounded magnitude reaches `2 ^ 1024`. -/
def round64 (q : ℚ) : Float64 :=
  if q = 0 then finite 0
  else
    let e := max (Int.log 2 |q|) (-1022)
    let ulp : ℚ := 2 ^ (e - 52)
    let v : ℚ := (roundHalfEven (|q| / ulp) : ℚ) * ulp
    if 2 ^ (1024 : Nat) ≤ v then inf (decide (q < 0))
    else finite (if q < 0 then -v else v)

/-- The conversion of a numeric constant of the source to `float64`. -/
def ofRat (q : ℚ) : Float64 := round64 q

/-- The conversion `float64(n)` of an integer. -/
def ofInt (n : Int) : Float64 := round64 n

/-- Unary minus. -/
def neg : Float64 → Float64
  | finite q => finite (-q)
  | inf negative => inf (!negative)
  | nan => nan

/-- The operator `+`. -/
def add : Float64 → Float64 → Float64
  | finite a, finite b => round64 (a + b)
  | finite _, inf s => inf s
  | inf s, finite _ => inf s
  | inf s, inf t => if s = t then inf s else nan
  | _, _ => nan

/-- The operator `-`. -/
def sub : Float64 → Float64 → Float64
  | finite a, finite b => round64 (a - b)
  | finite _, inf s => inf (!s)
  | inf s, finite _ => inf s
  | inf s, inf t => if s = t then nan else inf s
  | _, _ => nan

/-- The operator `*`. -/
def mul : Float64 → Float64 → Float64
  | finite a, finite b => round64 (a * b)
  | finite a, inf s => if a = 0 then nan else inf (s != decide (a < 0))
  | inf s, finite b => if b = 0 then nan else inf (s != decide (b < 0))
  | inf s, inf t => inf (s != t)
  | _, _ => nan

/-- The operator `/`. -/
def div : Float64 → Float64 → Float64
  | finite a, finite b =>
    if b = 0 then (if a = 0 then nan else inf (decide (a < 0)))
    else round64 (a / b)
  | finite _, inf _ => finite 0
  | inf s, finite b => inf (s != decide (b < 0))
  | inf _, inf _ => nan
  | _, _ => nan

instance : Add Float64 := ⟨add⟩
instance : Sub Float64 := ⟨sub⟩
instance : Mul Float64 := ⟨mul⟩
instance : Div Float64 := ⟨div⟩
instance : Neg Float64 := ⟨neg⟩

/-- The operator `==`. -/
def eq : Float64 → Float64 → Bool
  | finite a, finite b => decide (a = b)
  | inf s, inf t => s == t
  | _, _ => false

/-- The operator `<`. -/
def lt : Float64 → Float64 → Bool
  | finite a, finite b => decide (a < b)
  | finite _, inf s => !s
  | inf s, finite _ => s
  | inf s, inf t => s && !t
  | _, _ => false

/-- The operator `<=`. -/
def le : Float64 → Float64 → Bool
  | finite a, finite b => decide (a ≤ b)
  | finite _, inf s => !s
  | inf s, finite _ => s
  | inf s, inf t => s || !t
  | _, _ => false

instance : LT Float64 := ⟨fun a b => lt a b = true⟩
instance : LE Float64 := ⟨fun a b => le a b = true⟩
instance (a b : Float64) : Decidable (a < b) := inferInstanceAs (Decidable (lt a b = true))
instance (a b : Float64) : Decidable (a ≤ b) := inferInstanceAs (Decidable (le a b = true))

/-- The function `math.Abs`. -/
def abs : Float64 → Float64
  | finite q => finite |q|
  | inf _ => inf false
  | nan => nan

/-- The function `math.Max`: positive infinity wins, then NaN, then the comparison. -/
def max (x y : Float64) : Float64 :=
  if x = inf false ∨ y = inf false then inf false
  else if x = nan ∨ y = nan then nan
  else if x > y then x
  else y

/-- The function `math.Min`: negative infinity wins, then NaN, then the comparison. -/
def min (x y : Float64) : Float64 :=
  if x = inf true ∨ y = inf true then inf true
  else if x = nan ∨ y = nan then nan
  else if x < y then x
  else y

end Float64

/-! ## time -/

/-- Nanoseconds since the zero instant of `time.Time`. -/
structure Time where
  nanos : Int
deriving DecidableEq

/-- A `time.Duration`, in nanoseconds. -/
abbrev Duration := Int

def Nanosecond : Duration := 1
def Second : Duration := 1000000000 * Nanosecond
def Minute : Duration := 60 * Second

def minDuration : Duration := -(2 ^ 63)
def maxDuration : Duration := 2 ^ 63 - 1

/-- The method `Time.IsZero`. -/
def Time.IsZero (t : Time) : Bool := t.nanos == 0

/-- The method `Time.Sub`: the difference `t - u`, saturated to the range of a `Duration`. -/
def Time.Sub (t u : Time) : Duration :=
  let d := t.nanos - u.nanos
  if d < minDuration then minDuration
  else if d > maxDuration then maxDuration
  else d

/-- The reading of `time.Now()` used by the alert window: `Weekday()` (Sunday = 0,
..., Saturday = 6), `Hour()` and `Minute()`. -/
structure Clock where
  weekday : Nat
  hour : Nat
  minute : Nat
deriving DecidableEq

/-! ## models/stock.go, models/config.go -/

structure StockData where
  Code : String
  Name : String
  Current : Float64
  Open : Float64
  High : Float64
  Low : Float64
  Previous : Float64
  Change : Float64
  ChangeAmt : Float64
  Timestamp : Time
deriving DecidableEq

/-- The method `StockData.ChangePercent`. -/
def StockData.ChangePercent (s : StockData) : Float64 :=
  if Float64.eq s.Previous 0 then 0
  else ((s.Current - s.Previous) / s.Previous) * Float64.ofRat 100

/-- The method `StockData.IsSignificantChange`. -/
def StockData.IsSignificantChange (s : StockData) (threshold : Float64) : Bool :=
  decide (s.ChangePercent ≥ threshold) || decide (s.ChangePercent ≤ -threshold)

structure StockConfig where
  Code : String
  Name : String
  Threshold : Float64
deriving DecidableEq

structure WeChatConfig where
  WebhookURL : String
deriving DecidableEq

structure MonitorConfig where
  Interval : Duration
deriving DecidableEq

structure Config where
  Stock : StockConfig
  WeChat : WeChatConfig
  Monitor : MonitorConfig
deriving DecidableEq

/-! ## monitor/monitor.go -/

/-- Run-time panics of the Go program. -/
inductive Fault where
  | nilPointerDereference
  | closeOfClosedChannel
  | indexOutOfRange
deriving DecidableEq

/-- The arguments `formatAlertMessage` passes to `fmt.Sprintf`, in order. -/
structure AlertMessage where
  emoji : String
  name : String
  current : Float64
  direction : String
  absChange : Float64
  changeAmt : Float64
  openValue : Float64
  high : Float64
  low : Float64
  timestamp : Time
  threshold : Float64
  absOpenChange : Float64
  maxChange : Float64
deriving DecidableEq

/-- The interface `notifier.Notifier`: `Send` returns `none` for a nil error. -/
structure Notifier where
  Send : AlertMessage → Option String

/-- The fields of `StockMonitor` that the polling step reads and writes; `stopChanClosed`
records whether `stopChan` has been closed. -/
structure StockMonitor where
  config : Config
  isRunning : Bool
  stopChanClosed : Bool
  lastData : Option StockData
  lastAlertTime : Time
  dayStart : Float64
  maxChange : Float64
  minChange : Float64
deriving DecidableEq

/-- Calls made during a tick. -/
inductive Event where
  | sendAlertCall (data : StockData) (changePercent : Float64)
  | notifierSend (message : AlertMessage) (err : Option String)
deriving DecidableEq

def Event.isSendAlertCall : Event → Bool
  | .sendAlertCall _ _ => true
  | .notifierSend _ _ => false

def Event.isNotifierSend : Event → Bool
  | .sendAlertCall _ _ => false
  | .notifierSend _ _ => true

/-- The constructor `NewStockMonitor`. -/
def NewStockMonitor (config : Config) : StockMonitor :=
  { config := config
    isRunning := false
    stopChanClosed := false
    lastData := none
    lastAlertTime := ⟨0⟩
    dayStart := 0
    maxChange := 0
    minChange := 0 }

/-- The state change `Start` makes before it enters its polling loop. -/
def StartFlag (m : StockMonitor) : StockMonitor :=
  { m with isRunning := true }

/-- The method `Stop`: `close(m.stopChan)` panics when the channel is already closed. -/
def Stop (m : StockMonitor) : Except Fault StockMonitor :=
  let m1 := { m with isRunning := false }
  if m1.stopChanClosed then .error .closeOfClosedChannel
  else .ok { m1 with stopChanClosed := true }

/-- The method `calculateChangePercent`. -/
def calculateChangePercent (base current : Float64) : Float64 :=
  if Float64.eq base 0 then 0
  else ((current - base) / base) * Float64.ofRat 100

/-- The method `isWithinAlertWindow`, on the reading of the wall clock. -/
def isWithinAlertWindow (now : Clock) : Bool :=
  if now.weekday < 1 || now.weekday > 5 then false
  else if (now.hour == 14 && decide (now.minute ≥ 30))
      || (decide (now.hour > 14) && decide (now.hour < 15))
      || (now.hour == 15 && now.minute == 0) then true
  else false

/-- The method `shouldSendAlert`. -/
def shouldSendAlert (m : StockMonitor) (data : StockData) (changePercent : Float64) :
    Except Fault Bool :=
  if m.lastAlertTime.IsZero then .ok true
  else
    let timeDiff := data.Timestamp.Sub m.lastAlertTime
    if timeDiff < 5 * Minute then
      match m.lastData with
      | none => .error .nilPointerDereference
      | some last =>
        let lastChange := Float64.abs last.Change
        let currentChange := Float64.abs changePercent
        let changeDiff := currentChange - lastChange
        if changeDiff < Float64.ofRat 0.2 then .ok false
        else .ok true
    else .ok true

/-- The method `formatAlertMessage`. -/
def formatAlertMessage (m : StockMonitor) (data : StockData) (changePercent : Float64)
    (direction emoji : String) : AlertMessage :=
  let openChangePercent := calculateChangePercent m.dayStart data.Current
  { emoji := emoji
    name := data.Name
    current := data.Current
    direction := direction
    absChange := Float64.abs changePercent
    changeAmt := data.ChangeAmt
    openValue := data.Open
    high := data.High
    low := data.Low
    timestamp := data.Timestamp
    threshold := m.config.Stock.Threshold
    absOpenChange := Float64.abs openChangePercent
    maxChange := m.maxChange }

/-- The method `sendAlert`. -/
def sendAlert (notifier : Notifier) (now : Clock) (m : StockMonitor) (data : StockData)
    (changePercent : Float64) : Except Fault (StockMonitor × List Event) :=
  if !isWithinAlertWindow now then .ok (m, [])
  else
    match shouldSendAlert m data changePercent with
    | .error f => .error f
    | .ok false => .ok (m, [])
    | .ok true =>
      let direction := if changePercent > 0 then "上涨" else "下跌"
      let emoji := if changePercent > 0 then "📈" else "📉"
      let message := formatAlertMessage m data changePercent direction emoji
      match notifier.Send message with
      | some err => .ok (m, [Event.notifierSend message (some err)])
      | none =>
        .ok ({ m with lastAlertTime := data.Timestamp }, [Event.notifierSend message none])

/-- The method `checkStock`, on the outcome of `FetchStockData`. -/
def checkStock (fetched : Except String StockData) (notifier : Notifier) (now : Clock)
    (m : StockMonitor) : Except Fault (StockMonitor × List Event) :=
  match fetched with
  | .error _ => .ok (m, [])
  | .ok data =>
    match m.lastData with
    | none =>
      .ok ({ m with dayStart := data.Open, lastData := some data, maxChange := 0,
                    minChange := 0 }, [])
    | some _ =>
      let currentChange := data.Change
      let openChangePercent := calculateChangePercent m.dayStart data.Current
      let m1 := { m with maxChange := Float64.max m.maxChange (Float64.abs openChangePercent) }
      let m2 := { m1 with minChange := Float64.min m1.minChange (Float64.abs openChangePercent) }
      if Float64.abs currentChange ≥ m2.config.Stock.Threshold then
        match sendAlert notifier now m2 data currentChange with
        | .error f => .error f
        | .ok (m3, events) =>
          .ok ({ m3 with lastData := some data },
               Event.sendAlertCall data currentChange :: events)
      else .ok ({ m2 with lastData := some data }, [])

/-! ## monitor/fetcher.go -/

/-- The table `nameMap` of `getStockName` (and of `setDefaults`). -/
def nameMap : List (String × String) :=
  [("sh000001", "上证指数"), ("sz399001", "深证成指"), ("sz399006", "创业板指")]

/-- The method `getStockName`. -/
def getStockName (code : String) : String :=
  match nameMap.lookup code with
  | some name => name
  | none => code

/-- The method `parseFloat`; `strconvParseFloat` stands for the library function
`strconv.ParseFloat(s, 64)` and returns `none` when that reports an error. -/
def parseFloat (strconvParseFloat : String → Option Float64) (s : String) : Float64 :=
  if s = "" ∨ s = "-" then 0
  else
    match strconvParseFloat s with
    | none => 0
    | some val => val

/-- Indexing of a Go slice: out of range is a panic. -/
def index (fields : List String) (i : Nat) : Except Fault String :=
  match fields.get? i with
  | some s => .ok s
  | none => .error .indexOutOfRange

/-- The method `calculateChange`. -/
def calculateChange (strconvParseFloat : String → Option Float64) (fields : List String) :
    Except Fault Float64 :=
  match index fields 3 with
  | .error f => .error f
  | .ok f3 =>
    match index fields 2 with
    | .error f => .error f
    | .ok f2 =>
      let current := parseFloat strconvParseFloat f3
      let previous := parseFloat strconvParseFloat f2
      if Float64.eq previous 0 then .ok 0
      else .ok (((current - previous) / previous) * Float64.ofRat 100)

/-- The method `fetchFromSina` from the point where the reply has been split into its
comma-separated fields: `reply` is an error when the request failed or the body has no
`=`, and otherwise the list `fields`; `now` is the reading of `time.Now()`. The outer
`Except` carries run-time panics, the inner one the returned `error`. -/
def fetchFromSina (strconvParseFloat : String → Option Float64) (code : String)
    (reply : Except String (List String)) (now : Time) :
    Except Fault (Except String StockData) :=
  match reply with
  | .error e => .ok (.error e)
  | .ok fields =>
    if fields.length < 6 then .ok (.error "数据字段不足")
    else
      match index fields 3, index fields 2, index fields 1, index fields 4, index fields 5,
          calculateChange strconvParseFloat fields with
      | .ok f3, .ok f2, .ok f1, .ok f4, .ok f5, .ok change =>
        let current := parseFloat strconvParseFloat f3
        let previous := parseFloat strconvParseFloat f2
        let openValue := parseFloat strconvParseFloat f1
        let high := parseFloat strconvParseFloat f4
        let low := parseFloat strconvParseFloat f5
        .ok (.ok { Code := code
                   Name := getStockName code
                   Current := current
                   Open := openValue
                   High := high
                   Low := low
                   Previous := previous
                   Change := change
                   ChangeAmt := current - previous
                   Timestamp := now })
      | _, _, _, _, _, _ => .error .indexOutOfRange

/-- The readings of the wall clock made by `fetchFromMock`, one per call of `time.Now()`
in the order of the source: the Unix seconds for `base`, the minute and the second of
`currentTime`, the Unix seconds for `high`, `low` and `previous`, and the timestamp. -/
structure MockClock where
  unixBase : Int
  minute : Int
  second : Int
  unixHigh : Int
  unixLow : Int
  unixPrevious : Int
  stamp : Time
deriving DecidableEq

/-- The method `fetchFromMock`; `%` on Go integers truncates towards zero. -/
def fetchFromMock (code : String) (clk : MockClock) : StockData :=
  let base : Float64 := Float64.ofRat 3000 + Float64.ofInt (clk.unixBase.tmod 1000)
  let openValue : Float64 :=
    base + (Float64.ofInt (clk.minute.tmod 50) - Float64.ofRat 25)
  let current : Float64 :=
    openValue + (Float64.ofInt (clk.second.tmod 100) - Float64.ofRat 50) * Float64.ofRat 0.1
  let high : Float64 :=
    Float64.max openValue current + Float64.ofInt (clk.unixHigh.tmod 30)
  let low : Float64 :=
    Float64.min openValue current - Float64.ofInt (clk.unixLow.tmod 30)
  let previous : Float64 :=
    openValue - Float64.ofInt (clk.unixPrevious.tmod 20) + Float64.ofRat 10
  { Code := code
    Name := getStockName code
    Current := current
    Open := openValue
    High := high
    Low := low
    Previous := previous
    Change := ((current - previous) / previous) * Float64.ofRat 100
    ChangeAmt := current - previous
    Timestamp := clk.stamp }

/-- The method `FetchStockData`: the primary source, and the mock generator when it fails. -/
def FetchStockData (strconvParseFloat : String → Option Float64) (code : String)
    (reply : Except String (List String)) (now : Time) (clk : MockClock) :
    Except Fault (Except String StockData) :=
  match fetchFromSina strconvParseFloat code reply now with
  | .error f => .error f
  | .ok (.error _) => .ok (.ok (fetchFromMock code clk))
  | .ok (.ok data) => .ok (.ok data)

/-! ## config/config.go -/

/-- The errors `validateConfig` returns. -/
inductive ValidationError where
  | emptyCode
  | emptyWebhookURL
  | nonPositiveInterval
deriving DecidableEq

/-- The errors `Load` returns. -/
inductive LoadError where
  | createDefaultFailed
  | notExistCreatedDefault
  | readFailed
  | parseFailed
  | validationFailed (e : ValidationError)
deriving DecidableEq

/-- What `Load` finds at `filename`: no file (with the outcome of `createDefaultConfig`),
a file that cannot be read, a file `yaml.Unmarshal` rejects, or the configuration
`yaml.Unmarshal` fills in (absent keys keep the zero value). -/
inductive ConfigFile where
  | missing (createdDefault : Bool)
  | unreadable
  | malformed
  | parsed (config : Config)
deriving DecidableEq

/-- The function `validateConfig`. -/
def validateConfig (config : Config) : Except ValidationError Unit :=
  if config.Stock.Code = "" then .error .emptyCode
  else if config.WeChat.WebhookURL = "" then .error .emptyWebhookURL
  else if config.Monitor.Interval ≤ 0 then .error .nonPositiveInterval
  else .ok ()

/-- The function `setDefaults`. -/
def setDefaults (config : Config) : Config :=
  let c1 : Config :=
    if config.Stock.Name = "" then
      match nameMap.lookup config.Stock.Code with
      | some name => { config with Stock := { config.Stock with Name := name } }
      | none => config
    else config
  let c2 : Config :=
    if Float64.eq c1.Stock.Threshold 0 then
      { c1 with Stock := { c1.Stock with Threshold := Float64.ofRat 0.8 } }
    else c1
  if c2.Monitor.Interval = 0 then { c2 with Monitor := { Interval := 30 * Second } }
  else c2

/-- The function `Load`. -/
def Load (file : ConfigFile) : Except LoadError Config :=
  match file with
  | .missing false => .error .createDefaultFailed
  | .missing true => .error .notExistCreatedDefault
  | .unreadable => .error .readFailed
  | .malformed => .error .parseFailed
  | .parsed config =>
    match validateConfig config with
    | .error e => .error (.validationFailed e)
    | .ok () => .ok (setDefaults config)

/-! ## Abbreviations used in the statements -/

/-- The monitor after the running-statistics update of `checkStock` (the two assignments
to `maxChange` and `minChange`). -/
def withStatistics (m : StockMonitor) (data : StockData) : StockMonitor :=
  { m with
    maxChange :=
      Float64.max m.maxChange (Float64.abs (calculateChangePercent m.dayStart data.Current))
    minChange :=
      Float64.min m.minChange (Float64.abs (calculateChangePercent m.dayStart data.Current)) }

/-- The message `sendAlert` builds for a candidate: `formatAlertMessage` with the
direction and emoji chosen from the sign of the change. -/
def alertMessage (m : StockMonitor) (data : StockData) (c : Float64) : AlertMessage :=
  formatAlertMessage m data c (if c > 0 then "上涨" else "下跌")
    (if c > 0 then "📈" else "📉")

/-- The monitors the program can be in: built by `NewStockMonitor`, then changed only by
`Start`, by ticks of `checkStock` and by `Stop`. -/
inductive Reachable : StockMonitor → Prop where
  | init (config : Config) : Reachable (NewStockMonitor config)
  | start {m : StockMonitor} : Reachable m → Reachable (StartFlag m)
  | tick {m m' : StockMonitor} {events : List Event} (fetched : Except String StockData)
      (notifier : Notifier) (now : Clock) :
      Reachable m → checkStock fetched notifier now m = .ok (m', events) → Reachable m'
  | stop {m m' : StockMonitor} : Reachable m → Stop m = .ok m' → Reachable m'

/-! ## The polling loop -/

/-- The polling loop of `Start` once the running flag is set: one `checkStock` per tick, in
order, each with its own fetch outcome, notifier and reading of the clock; a panic ends
the run. -/
def runTicks (m : StockMonitor) :
    List (Except String StockData × Notifier × Clock) → Except Fault StockMonitor
  | [] => .ok m
  | (fetched, notifier, now) :: rest =>
    match checkStock fetched notifier now m with
    | .error f => .error f
    | .ok (m', _) => runTicks m' rest

/-- A tick whose fetch succeeded with the given snapshot. -/
def successfulTick (t : StockData × Notifier × Clock) :
    Except String StockData × Notifier × Clock :=
  (.ok t.1, t.2.1, t.2.2)

/-- The value `checkStock` feeds into the running statistics: the absolute value of
`calculateChangePercent(m.dayStart, data.Current)`. -/
def absChangeVsOpen (dayStart : Float64) (data : StockData) : Float64 :=
  Float64.abs (calculateChangePercent dayStart data.Current)

/-! ## Sample inputs -/

/-- A configuration as `config.yaml` gives it: threshold 0.8, interval 30 s. -/
def sampleConfig : Config :=
  { Stock := { Code := "sh000001", Name := "上证指数", Threshold := Float64.ofRat 0.8 }
    WeChat := { WebhookURL := "https://qyapi.weixin.qq.com/cgi-bin/webhook/send?key=k" }
    Monitor := { Interval := 30 * Second } }

/-- The snapshot the fetcher builds from the current value `current` (a decimal of the
reply, converted to the nearest double), open 3000, high 3050, low 2990 and previous close
3000, captured `minutes` minutes after a fixed instant: the change and the change amount
are computed in `float64` as `calculateChange` and `fetchFromSina` compute them. -/
def sampleSnapshot (current : ℚ) (minutes : Int) : StockData :=
  { Code := "sh000001"
    Name := "上证指数"
    Current := Float64.ofRat current
    Open := Float64.finite 3000
    High := Float64.finite 3050
    Low := Float64.finite 2990
    Previous := Float64.finite 3000
    Change :=
      ((Float64.ofRat current - Float64.finite 3000) / Float64.finite 3000) * Float64.ofRat 100
    ChangeAmt := Float64.ofRat current - Float64.finite 3000
    Timestamp := ⟨63898000000 * Second + minutes * Minute⟩ }

/-- A notifier whose `Send` always succeeds. -/
def okNotifier : Notifier := { Send := fun _ => none }

/-- A notifier whose `Send` always fails. -/
def failingNotifier : Notifier := { Send := fun _ => some "webhook unreachable" }

/-- Wednesday, 14:40 plus `minutes` minutes. -/
def wednesdayAfternoon (minutes : Nat) : Clock :=
  { weekday := 3, hour := 14, minute := 40 + minutes }

/-- Wednesday, 10:00. -/
def wednesdayMorning : Clock := { weekday := 3, hour := 10, minute := 0 }

/-- A monitor that has polled one snapshot (current 3000) and delivered no alert. -/
def polledMonitor : StockMonitor :=
  { NewStockMonitor sampleConfig with
    isRunning := true
    lastData := some (sampleSnapshot 3000 0)
    dayStart := Float64.finite 3000 }

/-- The monitor `polledMonitor` becomes when the snapshot with current value 3030 (a change
of 1.0 percent) is polled on Wednesday at 14:40 and its alert is delivered. -/
def alertedMonitor : StockMonitor :=
  { polledMonitor with
    lastData := some (sampleSnapshot 3030 0)
    lastAlertTime := (sampleSnapshot 3030 0).Timestamp
    maxChange := Float64.finite 1 }

/-- A configuration document with a symbol code and a webhook URL but no `interval` key:
`yaml.Unmarshal` leaves `Monitor.Interval` at 0. -/
def configWithoutInterval : Config :=
  { sampleConfig with Monitor := { Interval := 0 } }

/-- A configuration document whose threshold is `-1`. -/
def configNegativeThreshold : Config :=
  { sampleConfig with Stock := { sampleConfig.Stock with Threshold := Float64.finite (-1) } }

/-- A reply of the quote endpoint split at the commas: name, open, previous close,
current, high, low and one further field. -/
def sampleFields : List String :=
  ["上证指数", "3005.00", "3000.00", "3030.00", "3050.00", "2990.00", "0"]

/-- A stand-in for `strconv.ParseFloat` that knows the numbers of `sampleFields`. -/
def sampleParseFloat (s : String) : Option Float64 :=
  if s = "3005.00" then some (Float64.finite 3005)
  else if s = "3000.00" then some (Float64.finite 3000)
  else if s = "3030.00" then some (Float64.finite 3030)
  else if s = "3050.00" then some (Float64.finite 3050)
  else if s = "2990.00" then some (Float64.finite 2990)
  else if s = "0" then some (Float64.finite 0)
  else none

/-- Readings of the clock for `fetchFromMock`. -/
def sampleMockClock : MockClock :=
  { unixBase := 1762250000
    minute := 40
    second := 7
    unixHigh := 1762250000
    unixLow := 1762250000
    unixPrevious := 1762250000
    stamp := ⟨63898000000 * Second⟩ }

/-! ## Facts about float64 -/

theorem Float64.not_lt_of_ge {a b : Float64} (h : a ≥ b) : ¬ a < b := by
  change Float64.le b a = true at h
  change ¬ Float64.lt a b = true
  cases a <;> cases b <;> simp_all [Float64.le, Float64.lt]
  rename_i s t
  cases s <;> cases t <;> simp_all

theorem Float64.eq_zero_iff (x : Float64) : Float64.eq x 0 = true ↔ x = 0 := by
  change Float64.eq x (Float64.finite 0) = true ↔ x = Float64.finite 0
  cases x <;> simp [Float64.eq]

theorem Float64.finite_add (a b : ℚ) :
    Float64.finite a + Float64.finite b = Float64.round64 (a + b) := rfl

theorem Float64.finite_sub (a b : ℚ) :
    Float64.finite a - Float64.finite b = Float64.round64 (a - b) := rfl

theorem Float64.finite_mul (a b : ℚ) :
    Float64.finite a * Float64.finite b = Float64.round64 (a * b) := rfl

theorem Float64.finite_div (a b : ℚ) (hb : b ≠ 0) :
    Float64.finite a / Float64.finite b = Float64.round64 (a / b) := by
  show Float64.div (Float64.finite a) (Float64.finite b) = _
  simp [Float64.div, hb]

theorem Float64.abs_finite (a : ℚ) : Float64.abs (Float64.finite a) = Float64.finite |a| := rfl

theorem Float64.finite_le (a b : ℚ) : Float64.finite a ≤ Float64.finite b ↔ a ≤ b := by
  change Float64.le (Float64.finite a) (Float64.finite b) = true ↔ a ≤ b
  simp [Float64.le]

theorem Float64.finite_lt (a b : ℚ) : Float64.finite a < Float64.finite b ↔ a < b := by
  change Float64.lt (Float64.finite a) (Float64.finite b) = true ↔ a < b
  simp [Float64.lt]

theorem Float64.max_finite (a b : ℚ) :
    Float64.max (Float64.finite a) (Float64.finite b) = Float64.finite (Max.max a b) := by
  unfold Float64.max
  have h : (Float64.finite a > Float64.finite b) ↔ b < a := Float64.finite_lt b a
  by_cases hab : b < a
  · simp [h, hab, max_eq_left hab.le]
  · simp [h, hab, max_eq_right (not_lt.1 hab)]

theorem Float64.min_finite (a b : ℚ) :
    Float64.min (Float64.finite a) (Float64.finite b) = Float64.finite (Min.min a b) := by
  unfold Float64.min
  have h : (Float64.finite a < Float64.finite b) ↔ a < b := Float64.finite_lt a b
  by_cases hab : a < b
  · simp [h, hab, min_eq_left hab.le]
  · simp [h, hab, min_eq_right (not_lt.1 hab)]

theorem Float64.roundHalfEven_eq (x : ℚ) (n : ℤ) (h1 : (n : ℚ) - 1 / 2 < x)
    (h2 : x < n + 1 / 2) : Float64.roundHalfEven x = n := by
  unfold Float64.roundHalfEven
  simp only []
  by_cases hx : (n : ℚ) ≤ x
  · have hf : ⌊x⌋ = n := Int.floor_eq_iff.2 ⟨hx, by linarith⟩
    rw [hf, if_pos (by linarith)]
  · have hf : ⌊x⌋ = n - 1 :=
      Int.floor_eq_iff.2 ⟨by push_cast; linarith, by push_cast; linarith⟩
    rw [hf, if_neg (by push_cast; linarith), if_pos (by push_cast; linarith)]
    ring

theorem Float64.roundHalfEven_tie (x : ℚ) (f n : ℤ) (hx : x = f + 1 / 2)
    (hn : n = f ∨ n = f + 1) (heven : n % 2 = 0) : Float64.roundHalfEven x = n := by
  have hf : ⌊x⌋ = f := Int.floor_eq_iff.2 ⟨by rw [hx]; linarith, by rw [hx]; linarith⟩
  have hd : x - (f : ℚ) = 1 / 2 := by rw [hx]; ring
  unfold Float64.roundHalfEven
  simp only [hf, hd, lt_irrefl, if_false]
  rcases hn with hn | hn
  · rw [if_pos (by rw [← hn]; exact heven), hn]
  · rw [if_neg (by omega), hn]

theorem Float64.round64_of_rounded (q x : ℚ) (e n : ℤ) (he1 : (2 : ℚ) ^ e ≤ q)
    (he2 : q < (2 : ℚ) ^ (e + 1)) (he : -1022 ≤ e)
    (hr : Float64.roundHalfEven (q / (2 : ℚ) ^ (e - 52)) = n)
    (hx : x = n * (2 : ℚ) ^ (e - 52)) (hov : x < 2 ^ (1024 : Nat)) :
    Float64.round64 q = Float64.finite x := by
  have hq : 0 < q := lt_of_lt_of_le (zpow_pos (by norm_num) e) he1
  have habs : |q| = q := abs_of_pos hq
  have hlog : Int.log 2 q = e := by
    have h1 : e ≤ Int.log 2 q :=
      (Int.zpow_le_iff_le_log (by norm_num) hq).1 (by exact_mod_cast he1)
    have h2 : Int.log 2 q < e + 1 :=
      (Int.lt_zpow_iff_log_lt (by norm_num) hq).1 (by exact_mod_cast he2)
    omega
  unfold Float64.round64
  rw [if_neg (ne_of_gt hq)]
  simp only [habs, hlog, max_eq_left he]
  rw [hr, ← hx, if_neg (not_le.2 hov), if_neg (not_lt.2 hq.le)]

/-- A certificate for one rounding: `q` lies in the binade of exponent `e`, which is in the
normal range, and `n` is the integer within a half of `q` measured in units of
`2 ^ (e - 52)`; then `q` rounds to `n * 2 ^ (e - 52)`. -/
theorem Float64.round64_of_pos (q x : ℚ) (e n : ℤ) (he1 : (2 : ℚ) ^ e ≤ q)
    (he2 : q < (2 : ℚ) ^ (e + 1)) (he : -1022 ≤ e)
    (hn1 : (n : ℚ) - 1 / 2 < q / (2 : ℚ) ^ (e - 52))
    (hn2 : q / (2 : ℚ) ^ (e - 52) < n + 1 / 2)
    (hx : x = n * (2 : ℚ) ^ (e - 52)) (hov : x < 2 ^ (1024 : Nat)) :
    Float64.round64 q = Float64.finite x :=
  Float64.round64_of_rounded q x e n he1 he2 he (Float64.roundHalfEven_eq _ n hn1 hn2) hx hov

/-- A certificate for a rounding of a tie: `q` is exactly halfway between `f` and `f + 1`
units of `2 ^ (e - 52)`, and `n` is the even one of the two. -/
theorem Float64.round64_of_pos_tie (q x : ℚ) (e f n : ℤ) (he1 : (2 : ℚ) ^ e ≤ q)
    (he2 : q < (2 : ℚ) ^ (e + 1)) (he : -1022 ≤ e)
    (hq : q / (2 : ℚ) ^ (e - 52) = f + 1 / 2) (hn : n = f ∨ n = f + 1) (heven : n % 2 = 0)
    (hx : x = n * (2 : ℚ) ^ (e - 52)) (hov : x < 2 ^ (1024 : Nat)) :
    Float64.round64 q = Float64.finite x :=
  Float64.round64_of_rounded q x e n he1 he2 he
    (Float64.roundHalfEven_tie _ f n hq hn heven) hx hov

theorem Float64.round64_zero : Float64.round64 0 = Float64.finite 0 := by
  unfold Float64.round64
  rw [if_pos rfl]

theorem Float64.ofRat_100 : Float64.ofRat 100 = Float64.finite 100 :=
  Float64.round64_of_pos _ _ 6 7036874417766400 (by norm_num) (by norm_num)
      (by norm_num) (by norm_num) (by norm_num) (by norm_num) (by norm_num)

theorem Float64.ofRat_0_2 : Float64.ofRat 0.2 = Float64.finite (3602879701896397 / 18014398509481984) :=
  Float64.round64_of_pos _ _ (-3) 7205759403792794 (by norm_num) (by norm_num)
      (by norm_num) (by norm_num) (by norm_num) (by norm_num) (by norm_num)

theorem Float64.ofRat_0_8 : Float64.ofRat 0.8 = Float64.finite (3602879701896397 / 4503599627370496) :=
  Float64.round64_of_pos _ _ (-1) 7205759403792794 (by norm_num) (by norm_num)
      (by norm_num) (by norm_num) (by norm_num) (by norm_num) (by norm_num)


/-! ## The sample snapshots, evaluated -/

theorem sampleSnapshot_change (c c' d r x : ℚ) (minutes : Int)
    (h1 : Float64.ofRat c = Float64.finite c')
    (h2 : Float64.finite c' - Float64.finite 3000 = Float64.finite d)
    (h3 : Float64.finite d / Float64.finite 3000 = Float64.finite r)
    (h4 : Float64.finite r * Float64.finite 100 = Float64.finite x) (h5 : 0 ≤ x) :
    (sampleSnapshot c minutes).Change = Float64.finite x
      ∧ (sampleSnapshot c minutes).Current = Float64.finite c'
      ∧ calculateChangePercent (Float64.finite 3000) (sampleSnapshot c minutes).Current
          = Float64.finite x
      ∧ Float64.abs (sampleSnapshot c minutes).Change = Float64.finite x := by
  have hne : Float64.eq (Float64.finite 3000) 0 = false := by
    change Float64.eq (Float64.finite 3000) (Float64.finite 0) = false
    simp [Float64.eq]
  have hchange : (sampleSnapshot c minutes).Change = Float64.finite x := by
    show ((Float64.ofRat c - Float64.finite 3000) / Float64.finite 3000) * Float64.ofRat 100
      = Float64.finite x
    rw [h1, h2, h3, Float64.ofRat_100, h4]
  refine ⟨hchange, h1, ?_, ?_⟩
  · show calculateChangePercent (Float64.finite 3000) (Float64.ofRat c) = Float64.finite x
    unfold calculateChangePercent
    rw [hne, h1, h2, h3, Float64.ofRat_100, h4]
    rfl
  · rw [hchange, Float64.abs_finite, abs_of_nonneg h5]

theorem sampleSnapshot_3000 (minutes : Int) :
    (sampleSnapshot 3000 minutes).Change = Float64.finite 0
      ∧ (sampleSnapshot 3000 minutes).Current = Float64.finite 3000
      ∧ calculateChangePercent (Float64.finite 3000) (sampleSnapshot 3000 minutes).Current
          = Float64.finite 0
      ∧ Float64.abs (sampleSnapshot 3000 minutes).Change = Float64.finite 0 :=
  sampleSnapshot_change 3000 3000 0 0 0 minutes
    (show Float64.ofRat 3000 = Float64.finite 3000 from
      Float64.round64_of_pos _ _ 11 6597069766656000 (by norm_num) (by norm_num)
        (by norm_num) (by norm_num) (by norm_num) (by norm_num) (by norm_num))
    ((Float64.finite_sub _ _).trans (by norm_num [Float64.round64_zero]))
    ((Float64.finite_div _ _ (by norm_num)).trans (by norm_num [Float64.round64_zero]))
    ((Float64.finite_mul _ _).trans (by norm_num [Float64.round64_zero]))
    (by norm_num)

theorem sampleSnapshot_3030 (minutes : Int) :
    (sampleSnapshot 3030 minutes).Change = Float64.finite 1
      ∧ (sampleSnapshot 3030 minutes).Current = Float64.finite 3030
      ∧ calculateChangePercent (Float64.finite 3000) (sampleSnapshot 3030 minutes).Current
          = Float64.finite 1
      ∧ Float64.abs (sampleSnapshot 3030 minutes).Change = Float64.finite 1 :=
  sampleSnapshot_change 3030 3030 30 (5764607523034235 / 576460752303423488) 1 minutes
    (show Float64.ofRat 3030 = Float64.finite 3030 from
      Float64.round64_of_pos _ _ 11 6663040464322560 (by norm_num) (by norm_num)
        (by norm_num) (by norm_num) (by norm_num) (by norm_num) (by norm_num))
    ((Float64.finite_sub _ _).trans
      (Float64.round64_of_pos _ _ 4 8444249301319680 (by norm_num) (by norm_num)
        (by norm_num) (by norm_num) (by norm_num) (by norm_num) (by norm_num)))
    ((Float64.finite_div _ _ (by norm_num)).trans
      (Float64.round64_of_pos _ _ (-7) 5764607523034235 (by norm_num) (by norm_num)
        (by norm_num) (by norm_num) (by norm_num) (by norm_num) (by norm_num)))
    ((Float64.finite_mul _ _).trans
      (Float64.round64_of_pos _ _ 0 4503599627370496 (by norm_num) (by norm_num)
        (by norm_num) (by norm_num) (by norm_num) (by norm_num) (by norm_num)))
    (by norm_num)

theorem sampleSnapshot_3034_5 (minutes : Int) :
    (sampleSnapshot 3034.5 minutes).Change = Float64.finite (2589569785738035 / 2251799813685248)
      ∧ (sampleSnapshot 3034.5 minutes).Current = Float64.finite (6069 / 2)
      ∧ calculateChangePercent (Float64.finite 3000) (sampleSnapshot 3034.5 minutes).Current
          = Float64.finite (2589569785738035 / 2251799813685248)
      ∧ Float64.abs (sampleSnapshot 3034.5 minutes).Change = Float64.finite (2589569785738035 / 2251799813685248) :=
  sampleSnapshot_change 3034.5 (6069 / 2) (69 / 2) (3314649325744685 / 288230376151711744) (2589569785738035 / 2251799813685248) minutes
    (show Float64.ofRat 3034.5 = Float64.finite (6069 / 2) from
      Float64.round64_of_pos _ _ 11 6672936068972544 (by norm_num) (by norm_num)
        (by norm_num) (by norm_num) (by norm_num) (by norm_num) (by norm_num))
    ((Float64.finite_sub _ _).trans
      (Float64.round64_of_pos _ _ 5 4855443348258816 (by norm_num) (by norm_num)
        (by norm_num) (by norm_num) (by norm_num) (by norm_num) (by norm_num)))
    ((Float64.finite_div _ _ (by norm_num)).trans
      (Float64.round64_of_pos _ _ (-7) 6629298651489370 (by norm_num) (by norm_num)
        (by norm_num) (by norm_num) (by norm_num) (by norm_num) (by norm_num)))
    ((Float64.finite_mul _ _).trans
      (Float64.round64_of_pos _ _ 0 5179139571476070 (by norm_num) (by norm_num)
        (by norm_num) (by norm_num) (by norm_num) (by norm_num) (by norm_num)))
    (by norm_num)

theorem sampleSnapshot_3039 (minutes : Int) :
    (sampleSnapshot 3039 minutes).Change = Float64.finite (5854679515581645 / 4503599627370496)
      ∧ (sampleSnapshot 3039 minutes).Current = Float64.finite 3039
      ∧ calculateChangePercent (Float64.finite 3000) (sampleSnapshot 3039 minutes).Current
          = Float64.finite (5854679515581645 / 4503599627370496)
      ∧ Float64.abs (sampleSnapshot 3039 minutes).Change = Float64.finite (5854679515581645 / 4503599627370496) :=
  sampleSnapshot_change 3039 3039 39 (7493989779944505 / 576460752303423488) (5854679515581645 / 4503599627370496) minutes
    (show Float64.ofRat 3039 = Float64.finite 3039 from
      Float64.round64_of_pos _ _ 11 6682831673622528 (by norm_num) (by norm_num)
        (by norm_num) (by norm_num) (by norm_num) (by norm_num) (by norm_num))
    ((Float64.finite_sub _ _).trans
      (Float64.round64_of_pos _ _ 5 5488762045857792 (by norm_num) (by norm_num)
        (by norm_num) (by norm_num) (by norm_num) (by norm_num) (by norm_num)))
    ((Float64.finite_div _ _ (by norm_num)).trans
      (Float64.round64_of_pos _ _ (-7) 7493989779944505 (by norm_num) (by norm_num)
        (by norm_num) (by norm_num) (by norm_num) (by norm_num) (by norm_num)))
    ((Float64.finite_mul _ _).trans
      (Float64.round64_of_pos _ _ 0 5854679515581645 (by norm_num) (by norm_num)
        (by norm_num) (by norm_num) (by norm_num) (by norm_num) (by norm_num)))
    (by norm_num)

theorem sampleSnapshot_3045 (minutes : Int) :
    (sampleSnapshot 3045 minutes).Change = Float64.finite (3 / 2)
      ∧ (sampleSnapshot 3045 minutes).Current = Float64.finite 3045
      ∧ calculateChangePercent (Float64.finite 3000) (sampleSnapshot 3045 minutes).Current
          = Float64.finite (3 / 2)
      ∧ Float64.abs (sampleSnapshot 3045 minutes).Change = Float64.finite (3 / 2) :=
  sampleSnapshot_change 3045 3045 45 (1080863910568919 / 72057594037927936) (3 / 2) minutes
    (show Float64.ofRat 3045 = Float64.finite 3045 from
      Float64.round64_of_pos _ _ 11 6696025813155840 (by norm_num) (by norm_num)
        (by norm_num) (by norm_num) (by norm_num) (by norm_num) (by norm_num))
    ((Float64.finite_sub _ _).trans
      (Float64.round64_of_pos _ _ 5 6333186975989760 (by norm_num) (by norm_num)
        (by norm_num) (by norm_num) (by norm_num) (by norm_num) (by norm_num)))
    ((Float64.finite_div _ _ (by norm_num)).trans
      (Float64.round64_of_pos _ _ (-7) 8646911284551352 (by norm_num) (by norm_num)
        (by norm_num) (by norm_num) (by norm_num) (by norm_num) (by norm_num)))
    ((Float64.finite_mul _ _).trans
      (Float64.round64_of_pos _ _ 0 6755399441055744 (by norm_num) (by norm_num)
        (by norm_num) (by norm_num) (by norm_num) (by norm_num) (by norm_num)))
    (by norm_num)

theorem sampleSnapshot_3048 (minutes : Int) :
    (sampleSnapshot 3048 minutes).Change = Float64.finite (3602879701896397 / 2251799813685248)
      ∧ (sampleSnapshot 3048 minutes).Current = Float64.finite 3048
      ∧ calculateChangePercent (Float64.finite 3000) (sampleSnapshot 3048 minutes).Current
          = Float64.finite (3602879701896397 / 2251799813685248)
      ∧ Float64.abs (sampleSnapshot 3048 minutes).Change = Float64.finite (3602879701896397 / 2251799813685248) :=
  sampleSnapshot_change 3048 3048 48 (1152921504606847 / 72057594037927936) (3602879701896397 / 2251799813685248) minutes
    (show Float64.ofRat 3048 = Float64.finite 3048 from
      Float64.round64_of_pos _ _ 11 6702622882922496 (by norm_num) (by norm_num)
        (by norm_num) (by norm_num) (by norm_num) (by norm_num) (by norm_num))
    ((Float64.finite_sub _ _).trans
      (Float64.round64_of_pos _ _ 5 6755399441055744 (by norm_num) (by norm_num)
        (by norm_num) (by norm_num) (by norm_num) (by norm_num) (by norm_num)))
    ((Float64.finite_div _ _ (by norm_num)).trans
      (Float64.round64_of_pos _ _ (-6) 4611686018427388 (by norm_num) (by norm_num)
        (by norm_num) (by norm_num) (by norm_num) (by norm_num) (by norm_num)))
    ((Float64.finite_mul _ _).trans
      (Float64.round64_of_pos _ _ 0 7205759403792794 (by norm_num) (by norm_num)
        (by norm_num) (by norm_num) (by norm_num) (by norm_num) (by norm_num)))
    (by norm_num)

theorem sampleSnapshot_3060 (minutes : Int) :
    (sampleSnapshot 3060 minutes).Change = Float64.finite 2
      ∧ (sampleSnapshot 3060 minutes).Current = Float64.finite 3060
      ∧ calculateChangePercent (Float64.finite 3000) (sampleSnapshot 3060 minutes).Current
          = Float64.finite 2
      ∧ Float64.abs (sampleSnapshot 3060 minutes).Change = Float64.finite 2 :=
  sampleSnapshot_change 3060 3060 60 (5764607523034235 / 288230376151711744) 2 minutes
    (show Float64.ofRat 3060 = Float64.finite 3060 from
      Float64.round64_of_pos _ _ 11 6729011161989120 (by norm_num) (by norm_num)
        (by norm_num) (by norm_num) (by norm_num) (by norm_num) (by norm_num))
    ((Float64.finite_sub _ _).trans
      (Float64.round64_of_pos _ _ 5 8444249301319680 (by norm_num) (by norm_num)
        (by norm_num) (by norm_num) (by norm_num) (by norm_num) (by norm_num)))
    ((Float64.finite_div _ _ (by norm_num)).trans
      (Float64.round64_of_pos _ _ (-6) 5764607523034235 (by norm_num) (by norm_num)
        (by norm_num) (by norm_num) (by norm_num) (by norm_num) (by norm_num)))
    ((Float64.finite_mul _ _).trans
      (Float64.round64_of_pos _ _ 1 4503599627370496 (by norm_num) (by norm_num)
        (by norm_num) (by norm_num) (by norm_num) (by norm_num) (by norm_num)))
    (by norm_num)

theorem sampleSnapshot_3027 (minutes : Int) :
    (sampleSnapshot 3027 minutes).Change = Float64.finite (2026619832316723 / 2251799813685248)
      ∧ (sampleSnapshot 3027 minutes).Current = Float64.finite 3027
      ∧ calculateChangePercent (Float64.finite 3000) (sampleSnapshot 3027 minutes).Current
          = Float64.finite (2026619832316723 / 2251799813685248)
      ∧ Float64.abs (sampleSnapshot 3027 minutes).Change = Float64.finite (2026619832316723 / 2251799813685248) :=
  sampleSnapshot_change 3027 3027 27 (5188146770730811 / 576460752303423488) (2026619832316723 / 2251799813685248) minutes
    (show Float64.ofRat 3027 = Float64.finite 3027 from
      Float64.round64_of_pos _ _ 11 6656443394555904 (by norm_num) (by norm_num)
        (by norm_num) (by norm_num) (by norm_num) (by norm_num) (by norm_num))
    ((Float64.finite_sub _ _).trans
      (Float64.round64_of_pos _ _ 4 7599824371187712 (by norm_num) (by norm_num)
        (by norm_num) (by norm_num) (by norm_num) (by norm_num) (by norm_num)))
    ((Float64.finite_div _ _ (by norm_num)).trans
      (Float64.round64_of_pos _ _ (-7) 5188146770730811 (by norm_num) (by norm_num)
        (by norm_num) (by norm_num) (by norm_num) (by norm_num) (by norm_num)))
    ((Float64.finite_mul _ _).trans
      (Float64.round64_of_pos _ _ (-1) 8106479329266892 (by norm_num) (by norm_num)
        (by norm_num) (by norm_num) (by norm_num) (by norm_num) (by norm_num)))
    (by norm_num)

theorem sampleSnapshot_3000_56 (minutes : Int) :
    (sampleSnapshot 3000.56 minutes).Change = Float64.finite (1345075088707857 / 72057594037927936)
      ∧ (sampleSnapshot 3000.56 minutes).Current = Float64.finite (6598301219679109 / 2199023255552)
      ∧ calculateChangePercent (Float64.finite 3000) (sampleSnapshot 3000.56 minutes).Current
          = Float64.finite (1345075088707857 / 72057594037927936)
      ∧ Float64.abs (sampleSnapshot 3000.56 minutes).Change = Float64.finite (1345075088707857 / 72057594037927936) :=
  sampleSnapshot_change 3000.56 (6598301219679109 / 2199023255552) (1231453023109 / 2199023255552) (1721696113546057 / 9223372036854775808) (1345075088707857 / 72057594037927936) minutes
    (show Float64.ofRat 3000.56 = Float64.finite (6598301219679109 / 2199023255552) from
      Float64.round64_of_pos _ _ 11 6598301219679109 (by norm_num) (by norm_num)
        (by norm_num) (by norm_num) (by norm_num) (by norm_num) (by norm_num))
    ((Float64.finite_sub _ _).trans
      (Float64.round64_of_pos _ _ (-1) 5044031582654464 (by norm_num) (by norm_num)
        (by norm_num) (by norm_num) (by norm_num) (by norm_num) (by norm_num)))
    ((Float64.finite_div _ _ (by norm_num)).trans
      (Float64.round64_of_pos _ _ (-13) 6886784454184228 (by norm_num) (by norm_num)
        (by norm_num) (by norm_num) (by norm_num) (by norm_num) (by norm_num)))
    ((Float64.finite_mul _ _).trans
      (Float64.round64_of_pos _ _ (-6) 5380300354831428 (by norm_num) (by norm_num)
        (by norm_num) (by norm_num) (by norm_num) (by norm_num) (by norm_num)))
    (by norm_num)

theorem sampleSnapshot_3006_56 (minutes : Int) :
    (sampleSnapshot 3006.56 minutes).Change = Float64.finite (3939148474073361 / 18014398509481984)
      ∧ (sampleSnapshot 3006.56 minutes).Current = Float64.finite (6611495359212421 / 2199023255552)
      ∧ calculateChangePercent (Float64.finite 3000) (sampleSnapshot 3006.56 minutes).Current
          = Float64.finite (3939148474073361 / 18014398509481984)
      ∧ Float64.abs (sampleSnapshot 3006.56 minutes).Change = Float64.finite (3939148474073361 / 18014398509481984) :=
  sampleSnapshot_change 3006.56 (6611495359212421 / 2199023255552) (14425592556421 / 2199023255552) (2521055023406951 / 1152921504606846976) (3939148474073361 / 18014398509481984) minutes
    (show Float64.ofRat 3006.56 = Float64.finite (6611495359212421 / 2199023255552) from
      Float64.round64_of_pos _ _ 11 6611495359212421 (by norm_num) (by norm_num)
        (by norm_num) (by norm_num) (by norm_num) (by norm_num) (by norm_num))
    ((Float64.finite_sub _ _).trans
      (Float64.round64_of_pos _ _ 2 7385903388887552 (by norm_num) (by norm_num)
        (by norm_num) (by norm_num) (by norm_num) (by norm_num) (by norm_num)))
    ((Float64.finite_div _ _ (by norm_num)).trans
      (Float64.round64_of_pos _ _ (-9) 5042110046813902 (by norm_num) (by norm_num)
        (by norm_num) (by norm_num) (by norm_num) (by norm_num) (by norm_num)))
    ((Float64.finite_mul _ _).trans
      (Float64.round64_of_pos _ _ (-3) 7878296948146722 (by norm_num) (by norm_num)
        (by norm_num) (by norm_num) (by norm_num) (by norm_num) (by norm_num)))
    (by norm_num)

theorem changeDiff_3034_5_3030 :
    Float64.finite (2589569785738035 / 2251799813685248) - Float64.finite 1
      = Float64.finite (337769972052787 / 2251799813685248) :=
  (Float64.finite_sub _ _).trans
    (Float64.round64_of_pos _ _ (-3) 5404319552844592 (by norm_num) (by norm_num)
      (by norm_num) (by norm_num) (by norm_num) (by norm_num) (by norm_num))

theorem changeDiff_3039_3034_5 :
    Float64.finite (5854679515581645 / 4503599627370496) - Float64.finite (2589569785738035 / 2251799813685248)
      = Float64.finite (675539944105575 / 4503599627370496) :=
  (Float64.finite_sub _ _).trans
    (Float64.round64_of_pos _ _ (-3) 5404319552844600 (by norm_num) (by norm_num)
      (by norm_num) (by norm_num) (by norm_num) (by norm_num) (by norm_num))

theorem changeDiff_3039_3030 :
    Float64.finite (5854679515581645 / 4503599627370496) - Float64.finite 1
      = Float64.finite (1351079888211149 / 4503599627370496) :=
  (Float64.finite_sub _ _).trans
    (Float64.round64_of_pos _ _ (-2) 5404319552844596 (by norm_num) (by norm_num)
      (by norm_num) (by norm_num) (by norm_num) (by norm_num) (by norm_num))

theorem changeDiff_3045_3030 :
    Float64.finite (3 / 2) - Float64.finite 1
      = Float64.finite (1 / 2) :=
  (Float64.finite_sub _ _).trans
    (Float64.round64_of_pos _ _ (-1) 4503599627370496 (by norm_num) (by norm_num)
      (by norm_num) (by norm_num) (by norm_num) (by norm_num) (by norm_num))

theorem changeDiff_3048_3030 :
    Float64.finite (3602879701896397 / 2251799813685248) - Float64.finite 1
      = Float64.finite (1351079888211149 / 2251799813685248) :=
  (Float64.finite_sub _ _).trans
    (Float64.round64_of_pos _ _ (-1) 5404319552844596 (by norm_num) (by norm_num)
      (by norm_num) (by norm_num) (by norm_num) (by norm_num) (by norm_num))

theorem changeDiff_3048_3045 :
    Float64.finite (3602879701896397 / 2251799813685248) - Float64.finite (3 / 2)
      = Float64.finite (225179981368525 / 2251799813685248) :=
  (Float64.finite_sub _ _).trans
    (Float64.round64_of_pos _ _ (-4) 7205759403792800 (by norm_num) (by norm_num)
      (by norm_num) (by norm_num) (by norm_num) (by norm_num) (by norm_num))

theorem changeDiff_3006_56_3000_56 :
    Float64.finite (3939148474073361 / 18014398509481984) - Float64.finite (1345075088707857 / 72057594037927936)
      = Float64.finite (3602879701896397 / 18014398509481984) :=
  (Float64.finite_sub _ _).trans
    (Float64.round64_of_pos_tie _ _ (-3) 7205759403792793 7205759403792794 (by norm_num) (by norm_num)
      (by norm_num) (by norm_num) (Or.inr rfl) (by decide) (by norm_num) (by norm_num))

theorem threshold_le_of_abs (d : StockData) (x : ℚ)
    (h : Float64.abs d.Change = Float64.finite x)
    (hx : 3602879701896397 / 4503599627370496 ≤ x) :
    Float64.abs d.Change ≥ sampleConfig.Stock.Threshold := by
  show Float64.ofRat 0.8 ≤ Float64.abs d.Change
  rw [h, Float64.ofRat_0_8, Float64.finite_le]
  exact hx

theorem changeDiff_lt_iff (c l : Float64) (x y z : ℚ) (hc : Float64.abs c = Float64.finite x)
    (hl : Float64.abs l = Float64.finite y)
    (hs : Float64.finite x - Float64.finite y = Float64.finite z) :
    Float64.abs c - Float64.abs l < Float64.ofRat 0.2
      ↔ z < 3602879701896397 / 18014398509481984 := by
  rw [hc, hl, hs, Float64.ofRat_0_2, Float64.finite_lt]

theorem changeDiff_ge_iff (c l : Float64) (x y z : ℚ) (hc : Float64.abs c = Float64.finite x)
    (hl : Float64.abs l = Float64.finite y)
    (hs : Float64.finite x - Float64.finite y = Float64.finite z) :
    Float64.abs c - Float64.abs l ≥ Float64.ofRat 0.2
      ↔ 3602879701896397 / 18014398509481984 ≤ z := by
  show Float64.ofRat 0.2 ≤ Float64.abs c - Float64.abs l ↔ _
  rw [hc, hl, hs, Float64.ofRat_0_2, Float64.finite_le]

/-! ## Auxiliary facts -/

theorem Time.Sub_lt_five_minutes (t u : Time) :
    t.Sub u < 5 * Minute ↔ t.nanos - u.nanos < 5 * Minute := by
  unfold Time.Sub minDuration maxDuration Minute Second Nanosecond Duration
  simp only []
  split_ifs <;> constructor <;> intro h <;> omega

theorem shouldSendAlert_of_some (m : StockMonitor) (last data : StockData) (c : Float64)
    (h : m.lastData = some last) :
    shouldSendAlert m data c =
      .ok (m.lastAlertTime.IsZero
        || !(decide (data.Timestamp.nanos - m.lastAlertTime.nanos < 5 * Minute)
              && decide (Float64.abs c - Float64.abs last.Change < Float64.ofRat 0.2))) := by
  unfold shouldSendAlert
  by_cases hz : m.lastAlertTime.IsZero = true
  · simp [hz]
  · by_cases ht : data.Timestamp.nanos - m.lastAlertTime.nanos < 5 * Minute
    · have ht2 := (Time.Sub_lt_five_minutes data.Timestamp m.lastAlertTime).2 ht
      by_cases hc : Float64.abs c - Float64.abs last.Change < Float64.ofRat 0.2 <;> simp [hz, ht, ht2, h, hc]
    · have ht2 : ¬ data.Timestamp.Sub m.lastAlertTime < 5 * Minute :=
        fun h2 => ht ((Time.Sub_lt_five_minutes data.Timestamp m.lastAlertTime).1 h2)
      simp [hz, ht, ht2]

theorem sendAlert_outside_window (notifier : Notifier) (now : Clock) (m : StockMonitor)
    (data : StockData) (c : Float64) (hw : isWithinAlertWindow now = false) :
    sendAlert notifier now m data c = .ok (m, []) := by
  simp [sendAlert, hw]

theorem sendAlert_inside_window (notifier : Notifier) (now : Clock) (m : StockMonitor)
    (last data : StockData) (c : Float64) (h : m.lastData = some last)
    (hw : isWithinAlertWindow now = true) :
    sendAlert notifier now m data c =
      if m.lastAlertTime.IsZero = true
          ∨ ¬ (data.Timestamp.nanos - m.lastAlertTime.nanos < 5 * Minute
                ∧ Float64.abs c - Float64.abs last.Change < Float64.ofRat 0.2) then
        .ok (match notifier.Send (formatAlertMessage m data c
                (if c > 0 then "上涨" else "下跌") (if c > 0 then "📈" else "📉")) with
          | some err =>
            (m, [Event.notifierSend (formatAlertMessage m data c
                (if c > 0 then "上涨" else "下跌") (if c > 0 then "📈" else "📉")) (some err)])
          | none =>
            ({ m with lastAlertTime := data.Timestamp },
              [Event.notifierSend (formatAlertMessage m data c
                (if c > 0 then "上涨" else "下跌") (if c > 0 then "📈" else "📉")) none]))
      else .ok (m, []) := by
  unfold sendAlert
  rw [shouldSendAlert_of_some m last data c h]
  simp only [hw, Bool.not_true, Bool.false_eq_true, if_false]
  by_cases hz : m.lastAlertTime.IsZero = true
  · simp only [hz, Bool.true_or, true_or, if_true]
    cases notifier.Send _ <;> rfl
  · by_cases hs : data.Timestamp.nanos - m.lastAlertTime.nanos < 5 * Minute
        ∧ Float64.abs c - Float64.abs last.Change < Float64.ofRat 0.2
    · have hb : (m.lastAlertTime.IsZero
          || !(decide (data.Timestamp.nanos - m.lastAlertTime.nanos < 5 * Minute)
                && decide (Float64.abs c - Float64.abs last.Change < Float64.ofRat 0.2))) = false := by
        simp [hz, hs.1, hs.2]
      rw [hb]
      simp [hz, hs]
    · have hb : (m.lastAlertTime.IsZero
          || !(decide (data.Timestamp.nanos - m.lastAlertTime.nanos < 5 * Minute)
                && decide (Float64.abs c - Float64.abs last.Change < Float64.ofRat 0.2))) = true := by
        rw [not_and_or] at hs
        rcases hs with hs | hs <;> simp [hs]
      rw [hb]
      simp only [hz, hs, false_or, not_false_eq_true, if_true]
      cases notifier.Send _ <;> rfl

theorem checkStock_of_some (notifier : Notifier) (now : Clock) (m : StockMonitor)
    (prev data : StockData) (h : m.lastData = some prev) :
    checkStock (.ok data) notifier now m =
      if Float64.abs data.Change ≥ m.config.Stock.Threshold then
        if isWithinAlertWindow now = true
            ∧ (m.lastAlertTime.IsZero = true
              ∨ ¬ (data.Timestamp.nanos - m.lastAlertTime.nanos < 5 * Minute
                    ∧ Float64.abs data.Change - Float64.abs prev.Change < Float64.ofRat 0.2)) then
          match notifier.Send (alertMessage (withStatistics m data) data data.Change) with
          | some err =>
            .ok ({ withStatistics m data with lastData := some data },
              [Event.sendAlertCall data data.Change,
               Event.notifierSend (alertMessage (withStatistics m data) data data.Change)
                 (some err)])
          | none =>
            .ok ({ withStatistics m data with
                    lastAlertTime := data.Timestamp, lastData := some data },
              [Event.sendAlertCall data data.Change,
               Event.notifierSend (alertMessage (withStatistics m data) data data.Change)
                 none])
        else
          .ok ({ withStatistics m data with lastData := some data },
            [Event.sendAlertCall data data.Change])
      else .ok ({ withStatistics m data with lastData := some data }, []) := by
  obtain ⟨cfg, run, closed, ld, lat, ds, mx, mn⟩ := m
  simp only at h
  subst h
  have h2 : (withStatistics ⟨cfg, run, closed, some prev, lat, ds, mx, mn⟩ data).lastData
      = some prev := rfl
  unfold checkStock
  simp only []
  by_cases hT : Float64.abs data.Change ≥ cfg.Stock.Threshold
  · rw [if_pos hT, if_pos hT]
    change (match sendAlert notifier now
        (withStatistics ⟨cfg, run, closed, some prev, lat, ds, mx, mn⟩ data) data data.Change with
      | .error f => Except.error f
      | .ok (m3, events) =>
        Except.ok ({ m3 with lastData := some data },
          Event.sendAlertCall data data.Change :: events)) = _
    cases hw : isWithinAlertWindow now
    · rw [sendAlert_outside_window notifier now _ data _ hw]
      simp
    · rw [sendAlert_inside_window notifier now _ prev data _ h2 hw]
      have e1 : (withStatistics ⟨cfg, run, closed, some prev, lat, ds, mx, mn⟩ data).lastAlertTime
          = lat := rfl
      simp only [e1, true_and]
      by_cases hc : lat.IsZero = true
            ∨ ¬ (data.Timestamp.nanos - lat.nanos < 5 * Minute
                  ∧ Float64.abs data.Change - Float64.abs prev.Change < Float64.ofRat 0.2)
      · rw [if_pos hc, if_pos hc]
        unfold alertMessage
        cases notifier.Send _ <;> rfl
      · rw [if_neg hc, if_neg hc]
        rfl
  · rw [if_neg hT, if_neg hT]
    rfl

theorem checkStock_of_none (notifier : Notifier) (now : Clock) (m : StockMonitor)
    (data : StockData) (h : m.lastData = none) :
    checkStock (.ok data) notifier now m
      = .ok ({ m with dayStart := data.Open, lastData := some data, maxChange := 0,
                      minChange := 0 }, []) := by
  unfold checkStock
  simp only [h]

theorem checkStock_below_threshold (notifier : Notifier) (now : Clock) (m : StockMonitor)
    (prev data : StockData) (h : m.lastData = some prev)
    (hT : ¬ Float64.abs data.Change ≥ m.config.Stock.Threshold) :
    checkStock (.ok data) notifier now m
      = .ok ({ withStatistics m data with lastData := some data }, []) := by
  rw [checkStock_of_some notifier now m prev data h, if_neg hT]

theorem checkStock_outside_window (notifier : Notifier) (now : Clock) (m : StockMonitor)
    (prev data : StockData) (h : m.lastData = some prev)
    (hT : Float64.abs data.Change ≥ m.config.Stock.Threshold)
    (hw : isWithinAlertWindow now = false) :
    checkStock (.ok data) notifier now m
      = .ok ({ withStatistics m data with lastData := some data },
          [Event.sendAlertCall data data.Change]) := by
  rw [checkStock_of_some notifier now m prev data h, if_pos hT, if_neg]
  simp [hw]

theorem checkStock_suppressed (notifier : Notifier) (now : Clock) (m : StockMonitor)
    (prev data : StockData) (h : m.lastData = some prev)
    (hT : Float64.abs data.Change ≥ m.config.Stock.Threshold)
    (hz : m.lastAlertTime.IsZero = false)
    (ht : data.Timestamp.nanos - m.lastAlertTime.nanos < 5 * Minute)
    (hc : Float64.abs data.Change - Float64.abs prev.Change < Float64.ofRat 0.2) :
    checkStock (.ok data) notifier now m
      = .ok ({ withStatistics m data with lastData := some data },
          [Event.sendAlertCall data data.Change]) := by
  rw [checkStock_of_some notifier now m prev data h, if_pos hT, if_neg]
  simp [hz, ht, hc]

theorem checkStock_delivered (notifier : Notifier) (now : Clock) (m : StockMonitor)
    (prev data : StockData) (h : m.lastData = some prev)
    (hT : Float64.abs data.Change ≥ m.config.Stock.Threshold)
    (hw : isWithinAlertWindow now = true)
    (ha : m.lastAlertTime.IsZero = true
      ∨ ¬ (data.Timestamp.nanos - m.lastAlertTime.nanos < 5 * Minute
            ∧ Float64.abs data.Change - Float64.abs prev.Change < Float64.ofRat 0.2))
    (hs : notifier.Send (alertMessage (withStatistics m data) data data.Change) = none) :
    checkStock (.ok data) notifier now m
      = .ok ({ withStatistics m data with
                lastAlertTime := data.Timestamp, lastData := some data },
          [Event.sendAlertCall data data.Change,
           Event.notifierSend (alertMessage (withStatistics m data) data data.Change)
             none]) := by
  rw [checkStock_of_some notifier now m prev data h, if_pos hT, if_pos ⟨hw, ha⟩, hs]

theorem checkStock_send_failed (notifier : Notifier) (now : Clock) (m : StockMonitor)
    (prev data : StockData) (err : String) (h : m.lastData = some prev)
    (hT : Float64.abs data.Change ≥ m.config.Stock.Threshold)
    (hw : isWithinAlertWindow now = true)
    (ha : m.lastAlertTime.IsZero = true
      ∨ ¬ (data.Timestamp.nanos - m.lastAlertTime.nanos < 5 * Minute
            ∧ Float64.abs data.Change - Float64.abs prev.Change < Float64.ofRat 0.2))
    (hs : notifier.Send (alertMessage (withStatistics m data) data data.Change)
      = some err) :
    checkStock (.ok data) notifier now m
      = .ok ({ withStatistics m data with lastData := some data },
          [Event.sendAlertCall data data.Change,
           Event.notifierSend (alertMessage (withStatistics m data) data data.Change)
             (some err)]) := by
  rw [checkStock_of_some notifier now m prev data h, if_pos hT, if_pos ⟨hw, ha⟩, hs]

theorem isWithinAlertWindow_eq_true (now : Clock) :
    isWithinAlertWindow now = true ↔
      (1 ≤ now.weekday ∧ now.weekday ≤ 5)
        ∧ ((now.hour = 14 ∧ 30 ≤ now.minute) ∨ (now.hour = 15 ∧ now.minute = 0)) := by
  unfold isWithinAlertWindow
  split_ifs with h1 h2 <;>
    simp only [Bool.or_eq_true, Bool.and_eq_true, decide_eq_true_eq, beq_iff_eq,
      Bool.false_eq_true, false_iff, true_iff] at * <;>
    omega

theorem checkStock_lastData (fetched : StockData) (notifier : Notifier) (now : Clock)
    (m m' : StockMonitor) (events : List Event)
    (hrun : checkStock (.ok fetched) notifier now m = .ok (m', events)) :
    m'.lastData = some fetched := by
  cases hl : m.lastData with
  | none =>
    unfold checkStock at hrun
    simp only [hl] at hrun
    injection hrun with hrun
    injection hrun with h1 h2
    rw [← h1]
  | some prev =>
    rw [checkStock_of_some notifier now m prev fetched hl] at hrun
    split_ifs at hrun
    · cases hs : notifier.Send (alertMessage (withStatistics m fetched) fetched fetched.Change) <;>
        rw [hs] at hrun <;> injection hrun with hrun <;> injection hrun with h1 h2 <;>
        rw [← h1]
    all_goals
      injection hrun with hrun
      injection hrun with h1 h2
      rw [← h1]

theorem Reachable.lastAlertTime_zero {m : StockMonitor} (hr : Reachable m) :
    m.lastData = none → m.lastAlertTime = ⟨0⟩ := by
  induction hr with
  | init config => intro _; rfl
  | start _ ih => exact ih
  | tick fetched notifier now _ hrun ih =>
    intro hn
    cases fetched with
    | error e =>
      unfold checkStock at hrun
      injection hrun with hrun
      injection hrun with h1 h2
      subst h1
      exact ih hn
    | ok data =>
      rw [checkStock_lastData data notifier now _ _ _ hrun] at hn
      cases hn
  | stop _ hstop ih =>
    intro hn
    unfold Stop at hstop
    simp only at hstop
    split_ifs at hstop
    injection hstop with h1
    subst h1
    exact ih hn

theorem IsSignificantChange_iff (s : StockData) (threshold : Float64) :
    s.IsSignificantChange threshold = true ↔ Float64.abs s.ChangePercent ≥ threshold := by
  unfold StockData.IsSignificantChange
  rw [Bool.or_eq_true, decide_eq_true_eq, decide_eq_true_eq]
  change (Float64.le threshold s.ChangePercent = true
      ∨ Float64.le s.ChangePercent (Float64.neg threshold) = true)
    ↔ Float64.le threshold (Float64.abs s.ChangePercent) = true
  cases s.ChangePercent <;> cases threshold <;>
    simp [Float64.le, Float64.neg, Float64.abs, le_abs', or_comm]
  rename_i a b
  cases a <;> cases b <;> simp

/-! ## The alert window -/

/-- C4: `isWithinAlertWindow` is true exactly when the weekday is Monday (1) to Friday (5)
and the time of day is 14:30 to 14:59 (hour 14, minute at least 30) or exactly 15:00;
for every other reading of the clock (Saturday, Sunday, a time before 14:30 or from 15:01
on) it is false. -/
theorem isWithinAlertWindow_spec (now : Clock) :
    (isWithinAlertWindow now = true ↔
      (1 ≤ now.weekday ∧ now.weekday ≤ 5)
        ∧ ((now.hour = 14 ∧ 30 ≤ now.minute) ∨ (now.hour = 15 ∧ now.minute = 0)))
    ∧ (isWithinAlertWindow now = false ↔
      (now.weekday = 0 ∨ 6 ≤ now.weekday)
        ∨ now.hour < 14 ∨ (now.hour = 14 ∧ now.minute < 30)
        ∨ (now.hour = 15 ∧ 1 ≤ now.minute) ∨ 16 ≤ now.hour) := by
  refine ⟨isWithinAlertWindow_eq_true now, ?_⟩
  rw [← Bool.not_eq_true, isWithinAlertWindow_eq_true]
  omega

/-! ## The per-tick step -/

/-- C2: on a tick with a prior snapshot, `sendAlert` is entered exactly when the absolute
value of the snapshot's change-percent field is at least the threshold (any threshold, so
in particular any positive one); below the threshold, and also when the comparison fails
because a value is NaN, the tick invokes nothing, so the notifier is not called, and the
last-alert time is unchanged. The day-open baseline and
the current value, hence the change against the open, are arbitrary. -/
theorem checkStock_significance_test (notifier : Notifier) (now : Clock) (m : StockMonitor)
    (prev data : StockData) (h : m.lastData = some prev) :
    ∃ m' events, checkStock (.ok data) notifier now m = .ok (m', events)
      ∧ (Event.sendAlertCall data data.Change ∈ events
          ↔ Float64.abs data.Change ≥ m.config.Stock.Threshold)
      ∧ ((∃ e ∈ events, e.isSendAlertCall = true)
          ↔ Float64.abs data.Change ≥ m.config.Stock.Threshold)
      ∧ (Float64.abs data.Change < m.config.Stock.Threshold →
          events = [] ∧ (∀ e ∈ events, e.isNotifierSend = false)
            ∧ m'.lastAlertTime = m.lastAlertTime)
      ∧ (¬ Float64.abs data.Change ≥ m.config.Stock.Threshold →
          events = [] ∧ m'.lastAlertTime = m.lastAlertTime) := by
  by_cases hT : Float64.abs data.Change ≥ m.config.Stock.Threshold
  · have hnot : ¬ Float64.abs data.Change < m.config.Stock.Threshold :=
      Float64.not_lt_of_ge hT
    rw [checkStock_of_some notifier now m prev data h, if_pos hT]
    split_ifs
    · cases notifier.Send (alertMessage (withStatistics m data) data data.Change) <;>
        exact ⟨_, _, rfl, by simp [hT], ⟨fun _ => hT, fun _ => ⟨_, List.mem_cons_self _ _, rfl⟩⟩,
          fun hlt => absurd hlt hnot, fun hn => absurd hT hn⟩
    · exact ⟨_, _, rfl, by simp [hT], ⟨fun _ => hT, fun _ => ⟨_, List.mem_cons_self _ _, rfl⟩⟩,
        fun hlt => absurd hlt hnot, fun hn => absurd hT hn⟩
  · rw [checkStock_below_threshold notifier now m prev data h hT]
    refine ⟨_, _, rfl, by simp [hT], ?_, fun _ => ⟨rfl, by simp, rfl⟩, fun _ => ⟨rfl, rfl⟩⟩
    simp [hT]

theorem checkStock_significance_test_witness :
    ∃ m' events, checkStock (.ok (sampleSnapshot 3030 1)) okNotifier (wednesdayAfternoon 1)
        polledMonitor = .ok (m', events)
      ∧ (Event.sendAlertCall (sampleSnapshot 3030 1) (sampleSnapshot 3030 1).Change ∈ events
          ↔ Float64.abs (sampleSnapshot 3030 1).Change ≥ polledMonitor.config.Stock.Threshold)
      ∧ ((∃ e ∈ events, e.isSendAlertCall = true)
          ↔ Float64.abs (sampleSnapshot 3030 1).Change ≥ polledMonitor.config.Stock.Threshold)
      ∧ (Float64.abs (sampleSnapshot 3030 1).Change < polledMonitor.config.Stock.Threshold →
          events = [] ∧ (∀ e ∈ events, e.isNotifierSend = false)
            ∧ m'.lastAlertTime = polledMonitor.lastAlertTime)
      ∧ (¬ Float64.abs (sampleSnapshot 3030 1).Change
            ≥ polledMonitor.config.Stock.Threshold →
          events = [] ∧ m'.lastAlertTime = polledMonitor.lastAlertTime) :=
  checkStock_significance_test okNotifier (wednesdayAfternoon 1) polledMonitor
    (sampleSnapshot 3000 0) (sampleSnapshot 3030 1) rfl

/-- C3: on a tick with a prior snapshot, when the wall clock is outside Monday to Friday
14:30 to 15:00, the notifier is not invoked and the last-alert time and the day-open
baseline keep their values, whatever the new snapshot is, while the stored last snapshot
becomes the new snapshot. -/
theorem checkStock_outside_alert_window (notifier : Notifier) (now : Clock)
    (m : StockMonitor) (prev data : StockData) (h : m.lastData = some prev)
    (hout : ¬ ((1 ≤ now.weekday ∧ now.weekday ≤ 5)
      ∧ ((now.hour = 14 ∧ 30 ≤ now.minute) ∨ (now.hour = 15 ∧ now.minute = 0)))) :
    ∃ m' events, checkStock (.ok data) notifier now m = .ok (m', events)
      ∧ (∀ e ∈ events, e.isNotifierSend = false)
      ∧ m'.lastAlertTime = m.lastAlertTime
      ∧ m'.dayStart = m.dayStart
      ∧ m'.lastData = some data := by
  have hw : isWithinAlertWindow now = false := by
    rw [← Bool.not_eq_true, isWithinAlertWindow_eq_true]
    exact hout
  by_cases hT : Float64.abs data.Change ≥ m.config.Stock.Threshold
  · rw [checkStock_outside_window notifier now m prev data h hT hw]
    refine ⟨_, _, rfl, ?_, rfl, rfl, rfl⟩
    intro e he
    rw [List.mem_singleton] at he
    rw [he]
    rfl
  · rw [checkStock_below_threshold notifier now m prev data h hT]
    exact ⟨_, _, rfl, by simp, rfl, rfl, rfl⟩

theorem checkStock_outside_alert_window_witness :
    ∃ m' events, checkStock (.ok (sampleSnapshot 3030 1)) okNotifier wednesdayMorning
        polledMonitor = .ok (m', events)
      ∧ (∀ e ∈ events, e.isNotifierSend = false)
      ∧ m'.lastAlertTime = polledMonitor.lastAlertTime
      ∧ m'.dayStart = polledMonitor.dayStart
      ∧ m'.lastData = some (sampleSnapshot 3030 1) :=
  checkStock_outside_alert_window okNotifier wednesdayMorning polledMonitor
    (sampleSnapshot 3000 0) (sampleSnapshot 3030 1) rfl (by decide)

/-- C7: on the first tick (no prior snapshot) of a monitor the program can reach, for
every fetched snapshot, threshold, notifier and wall clock, the tick sets the day-open
baseline to the snapshot's open value, stores the snapshot as the last one, sets the
running maximum and minimum to 0, makes no call (so the notifier is not invoked), and
the last-alert time keeps its value, which is the zero (unset) time. -/
theorem checkStock_first_tick (notifier : Notifier) (now : Clock) (m : StockMonitor)
    (s : StockData) (hr : Reachable m) (h : m.lastData = none) :
    ∃ m', checkStock (.ok s) notifier now m = .ok (m', [])
      ∧ m'.dayStart = s.Open
      ∧ m'.lastData = some s
      ∧ m'.maxChange = 0
      ∧ m'.minChange = 0
      ∧ m'.lastAlertTime = m.lastAlertTime
      ∧ m'.lastAlertTime.IsZero = true := by
  have hz : m.lastAlertTime = ⟨0⟩ := hr.lastAlertTime_zero h
  refine ⟨{ m with dayStart := s.Open, lastData := some s, maxChange := 0, minChange := 0 },
    ?_, rfl, rfl, rfl, rfl, rfl, ?_⟩
  · unfold checkStock
    simp only [h]
  · show m.lastAlertTime.IsZero = true
    rw [hz]
    rfl

theorem checkStock_first_tick_witness :
    ∃ m', checkStock (.ok (sampleSnapshot 3030 0)) okNotifier (wednesdayAfternoon 0)
        (StartFlag (NewStockMonitor sampleConfig)) = .ok (m', [])
      ∧ m'.dayStart = (sampleSnapshot 3030 0).Open
      ∧ m'.lastData = some (sampleSnapshot 3030 0)
      ∧ m'.maxChange = 0
      ∧ m'.minChange = 0
      ∧ m'.lastAlertTime = (StartFlag (NewStockMonitor sampleConfig)).lastAlertTime
      ∧ m'.lastAlertTime.IsZero = true :=
  checkStock_first_tick okNotifier (wednesdayAfternoon 0)
    (StartFlag (NewStockMonitor sampleConfig)) (sampleSnapshot 3030 0)
    (Reachable.start (Reachable.init sampleConfig)) rfl

/-! ## Stopping -/

/-- C6 (the code at the failing input): for a monitor fresh from `NewStockMonitor`, and
for one that `Start` has marked running, the first `Stop` returns and closes the stop
channel, and a second `Stop` panics with "close of closed channel". -/
theorem Stop_twice_panics (config : Config) :
    (∃ m1, Stop (NewStockMonitor config) = .ok m1 ∧ m1.stopChanClosed = true
        ∧ Stop m1 = .error .closeOfClosedChannel)
    ∧ (∃ m1, Stop (StartFlag (NewStockMonitor config)) = .ok m1 ∧ m1.stopChanClosed = true
        ∧ Stop m1 = .error .closeOfClosedChannel) :=
  ⟨⟨_, rfl, rfl, rfl⟩, ⟨_, rfl, rfl, rfl⟩⟩


/-! ## The dedup gate -/

theorem withStatistics_polledMonitor_3030 :
    withStatistics polledMonitor (sampleSnapshot 3030 0)
      = { polledMonitor with maxChange := Float64.finite 1 } := by
  have hc := (sampleSnapshot_3030 0).2.2.1
  have hmax : Float64.max polledMonitor.maxChange
      (Float64.abs (calculateChangePercent polledMonitor.dayStart
        (sampleSnapshot 3030 0).Current)) = Float64.finite 1 := by
    show Float64.max (Float64.finite 0)
      (Float64.abs (calculateChangePercent (Float64.finite 3000)
        (sampleSnapshot 3030 0).Current)) = Float64.finite 1
    rw [hc, Float64.abs_finite, Float64.max_finite]
    norm_num
  have hmin : Float64.min polledMonitor.minChange
      (Float64.abs (calculateChangePercent polledMonitor.dayStart
        (sampleSnapshot 3030 0).Current)) = Float64.finite 0 := by
    show Float64.min (Float64.finite 0)
      (Float64.abs (calculateChangePercent (Float64.finite 3000)
        (sampleSnapshot 3030 0).Current)) = Float64.finite 0
    rw [hc, Float64.abs_finite, Float64.min_finite]
    norm_num
  unfold withStatistics
  rw [hmax, hmin]
  rfl

theorem alertedMonitor_reached :
    checkStock (.ok (sampleSnapshot 3030 0)) okNotifier (wednesdayAfternoon 0) polledMonitor
      = .ok (alertedMonitor,
          [Event.sendAlertCall (sampleSnapshot 3030 0) (sampleSnapshot 3030 0).Change,
           Event.notifierSend
             (alertMessage (withStatistics polledMonitor (sampleSnapshot 3030 0))
               (sampleSnapshot 3030 0) (sampleSnapshot 3030 0).Change) none]) := by
  rw [checkStock_delivered okNotifier (wednesdayAfternoon 0) polledMonitor
    (sampleSnapshot 3000 0) (sampleSnapshot 3030 0) rfl
    (threshold_le_of_abs _ _ (sampleSnapshot_3030 0).2.2.2 (by norm_num))
    (by decide) (Or.inl (by decide)) rfl]
  have e : ({ withStatistics polledMonitor (sampleSnapshot 3030 0) with
      lastAlertTime := (sampleSnapshot 3030 0).Timestamp,
      lastData := some (sampleSnapshot 3030 0) } : StockMonitor) = alertedMonitor := by
    rw [withStatistics_polledMonitor_3030]
    rfl
  rw [e]

/-- C1 (counterexample): an alert of magnitude 1.0 is delivered at 14:40; the snapshot
polled one minute later (magnitude 1.15) is suppressed; the candidate polled two minutes
after the alert, inside the window, has magnitude 1.3, which is 0.3 above the delivered
alert, and it is suppressed all the same, because 1.3 is only 0.15 above the snapshot
polled in between. All magnitudes and differences are the `float64` values the code
computes from current 3030, 3034.5 and 3039 with previous close 3000. -/
theorem dedup_gate_counterexample :
    ∃ m2 m3,
      checkStock (.ok (sampleSnapshot 3034.5 1)) okNotifier (wednesdayAfternoon 1)
          alertedMonitor
        = .ok (m2, [Event.sendAlertCall (sampleSnapshot 3034.5 1)
            (sampleSnapshot 3034.5 1).Change])
      ∧ m2.lastAlertTime = (sampleSnapshot 3030 0).Timestamp
      ∧ isWithinAlertWindow (wednesdayAfternoon 2) = true
      ∧ Float64.abs (sampleSnapshot 3039 2).Change ≥ m2.config.Stock.Threshold
      ∧ checkStock (.ok (sampleSnapshot 3039 2)) okNotifier (wednesdayAfternoon 2) m2
        = .ok (m3, [Event.sendAlertCall (sampleSnapshot 3039 2)
            (sampleSnapshot 3039 2).Change])
      ∧ (sampleSnapshot 3039 2).Timestamp.nanos - (sampleSnapshot 3030 0).Timestamp.nanos
          < 5 * Minute
      ∧ Float64.abs (sampleSnapshot 3039 2).Change
          - Float64.abs (sampleSnapshot 3030 0).Change ≥ Float64.ofRat 0.2 := by
  refine ⟨_, _,
    checkStock_suppressed okNotifier (wednesdayAfternoon 1) alertedMonitor
      (sampleSnapshot 3030 0) (sampleSnapshot 3034.5 1) rfl
      (threshold_le_of_abs _ _ (sampleSnapshot_3034_5 1).2.2.2 (by norm_num))
      (by decide) (by decide)
      ((changeDiff_lt_iff _ _ _ _ _ (sampleSnapshot_3034_5 1).2.2.2
        (sampleSnapshot_3030 0).2.2.2 changeDiff_3034_5_3030).2 (by norm_num)),
    rfl, by decide,
    threshold_le_of_abs _ _ (sampleSnapshot_3039 2).2.2.2 (by norm_num),
    checkStock_suppressed okNotifier (wednesdayAfternoon 2) _
      (sampleSnapshot 3034.5 1) (sampleSnapshot 3039 2) rfl
      (threshold_le_of_abs _ _ (sampleSnapshot_3039 2).2.2.2 (by norm_num))
      (by decide) (by decide)
      ((changeDiff_lt_iff _ _ _ _ _ (sampleSnapshot_3039 2).2.2.2
        (sampleSnapshot_3034_5 1).2.2.2 changeDiff_3039_3034_5).2 (by norm_num)),
    by decide,
    (changeDiff_ge_iff _ _ _ _ _ (sampleSnapshot_3039 2).2.2.2
      (sampleSnapshot_3030 0).2.2.2 changeDiff_3039_3030).2 (by norm_num)⟩

/-- C1 (amended): for a monitor whose last alert was delivered at `t0` (so the last-alert
time is set) and whose stored last snapshot is `last`, a candidate (magnitude at least the
threshold) polled inside the alert window with timestamp `t` and change-percent `c` is
suppressed, that is the notifier is not invoked, if and only if `t - t0` is under 5 minutes
and the `float64` difference `|c| - |last.Change|` is under 0.2; the magnitude compared
against is that of the stored last snapshot, which is the delivered alert only when nothing
was polled since. -/
theorem dedup_gate_compares_with_last_snapshot (notifier : Notifier) (now : Clock)
    (m : StockMonitor) (last data : StockData) (h : m.lastData = some last)
    (hz : m.lastAlertTime.IsZero = false)
    (hT : Float64.abs data.Change ≥ m.config.Stock.Threshold)
    (hw : isWithinAlertWindow now = true) :
    ∃ m' events, checkStock (.ok data) notifier now m = .ok (m', events)
      ∧ ((∀ e ∈ events, e.isNotifierSend = false)
          ↔ (data.Timestamp.nanos - m.lastAlertTime.nanos < 5 * Minute
              ∧ Float64.abs data.Change - Float64.abs last.Change < Float64.ofRat 0.2)) := by
  by_cases hc : data.Timestamp.nanos - m.lastAlertTime.nanos < 5 * Minute
      ∧ Float64.abs data.Change - Float64.abs last.Change < Float64.ofRat 0.2
  · rw [checkStock_suppressed notifier now m last data h hT hz hc.1 hc.2]
    refine ⟨_, _, rfl, fun _ => hc, fun _ e he => ?_⟩
    rw [List.mem_singleton] at he
    rw [he]
    rfl
  · cases hs : notifier.Send (alertMessage (withStatistics m data) data data.Change) with
    | none =>
      rw [checkStock_delivered notifier now m last data h hT hw (Or.inr hc) hs]
      refine ⟨_, _, rfl, fun hall => ?_, fun hc2 => absurd hc2 hc⟩
      have := hall _ (List.mem_cons_of_mem _ (List.mem_cons_self _ _))
      cases this
    | some err =>
      rw [checkStock_send_failed notifier now m last data err h hT hw (Or.inr hc) hs]
      refine ⟨_, _, rfl, fun hall => ?_, fun hc2 => absurd hc2 hc⟩
      have := hall _ (List.mem_cons_of_mem _ (List.mem_cons_self _ _))
      cases this

theorem dedup_gate_compares_with_last_snapshot_witness :
    ∃ m' events, checkStock (.ok (sampleSnapshot 3034.5 1)) okNotifier (wednesdayAfternoon 1)
        alertedMonitor = .ok (m', events)
      ∧ ((∀ e ∈ events, e.isNotifierSend = false)
          ↔ ((sampleSnapshot 3034.5 1).Timestamp.nanos - alertedMonitor.lastAlertTime.nanos
                < 5 * Minute
              ∧ Float64.abs (sampleSnapshot 3034.5 1).Change
                  - Float64.abs (sampleSnapshot 3030 0).Change < Float64.ofRat 0.2)) :=
  dedup_gate_compares_with_last_snapshot okNotifier (wednesdayAfternoon 1) alertedMonitor
    (sampleSnapshot 3030 0) (sampleSnapshot 3034.5 1) rfl (by decide)
    (threshold_le_of_abs _ _ (sampleSnapshot_3034_5 1).2.2.2 (by norm_num))
    (by decide)

/-- The dedup gate follows the rounding of `float64`: with the stored last snapshot at
current 3000.56 and the candidate at current 3006.56 (previous close 3000) the two
magnitudes differ by less than 1/5 as exact numbers, yet their `float64` difference is
the double 0.2 itself, so the candidate is not suppressed. -/
theorem dedup_gate_rounded_difference :
    shouldSendAlert { alertedMonitor with lastData := some (sampleSnapshot 3000.56 0) }
        (sampleSnapshot 3006.56 1) (sampleSnapshot 3006.56 1).Change = .ok true
      ∧ Float64.abs (sampleSnapshot 3006.56 1).Change
          - Float64.abs (sampleSnapshot 3000.56 0).Change = Float64.ofRat 0.2
      ∧ ((3939148474073361 : ℚ) / 18014398509481984
          - 1345075088707857 / 72057594037927936 < 1 / 5) := by
  have hdiff : Float64.abs (sampleSnapshot 3006.56 1).Change
      - Float64.abs (sampleSnapshot 3000.56 0).Change = Float64.ofRat 0.2 := by
    rw [(sampleSnapshot_3006_56 1).2.2.2, (sampleSnapshot_3000_56 0).2.2.2,
      changeDiff_3006_56_3000_56, Float64.ofRat_0_2]
  refine ⟨?_, hdiff, by norm_num⟩
  rw [shouldSendAlert_of_some _ (sampleSnapshot 3000.56 0) _ _ rfl, hdiff]
  have hirr : ¬ (Float64.ofRat 0.2 < Float64.ofRat 0.2) := by
    rw [Float64.ofRat_0_2, Float64.finite_lt]
    exact lt_irrefl _
  simp [hirr]

/-! ## What a send records -/

/-- C5 (counterexample): the monitor has delivered an alert of magnitude 1.0 at 14:40; a
candidate of magnitude 1.5 one minute later passes both gates and its `Send` fails. The
last-alert time is unchanged, but the magnitude the dedup gate compares against has moved
from 1.0 to 1.5: a further candidate of magnitude 1.6 at 14:42 is allowed by the monitor
as it was before the failed tick and suppressed by the monitor after it. -/
theorem failed_send_counterexample :
    ∃ m' message err,
      checkStock (.ok (sampleSnapshot 3045 1)) failingNotifier (wednesdayAfternoon 1)
          alertedMonitor
        = .ok (m', [Event.sendAlertCall (sampleSnapshot 3045 1) (sampleSnapshot 3045 1).Change,
            Event.notifierSend message (some err)])
      ∧ m'.lastAlertTime = alertedMonitor.lastAlertTime
      ∧ alertedMonitor.lastData = some (sampleSnapshot 3030 0)
      ∧ m'.lastData = some (sampleSnapshot 3045 1)
      ∧ Float64.abs (sampleSnapshot 3030 0).Change = Float64.finite 1
      ∧ Float64.abs (sampleSnapshot 3045 1).Change = Float64.finite (3 / 2)
      ∧ shouldSendAlert alertedMonitor (sampleSnapshot 3048 2) (sampleSnapshot 3048 2).Change
        = .ok true
      ∧ shouldSendAlert m' (sampleSnapshot 3048 2) (sampleSnapshot 3048 2).Change
        = .ok false := by
  have hz : alertedMonitor.lastAlertTime.IsZero = false := by decide
  have ht : (sampleSnapshot 3048 2).Timestamp.nanos - alertedMonitor.lastAlertTime.nanos
      < 5 * Minute := by decide
  refine ⟨_, _, _,
    checkStock_send_failed failingNotifier (wednesdayAfternoon 1) alertedMonitor
      (sampleSnapshot 3030 0) (sampleSnapshot 3045 1) "webhook unreachable" rfl
      (threshold_le_of_abs _ _ (sampleSnapshot_3045 1).2.2.2 (by norm_num)) (by decide)
      (Or.inr ?_) rfl,
    rfl, rfl, rfl, (sampleSnapshot_3030 0).2.2.2, (sampleSnapshot_3045 1).2.2.2, ?_, ?_⟩
  · intro hc
    have := (changeDiff_lt_iff _ _ _ _ _ (sampleSnapshot_3045 1).2.2.2
      (sampleSnapshot_3030 0).2.2.2 changeDiff_3045_3030).1 hc.2
    norm_num at this
  · rw [shouldSendAlert_of_some alertedMonitor (sampleSnapshot 3030 0) _ _ rfl]
    have hc : ¬ (Float64.abs (sampleSnapshot 3048 2).Change
        - Float64.abs (sampleSnapshot 3030 0).Change < Float64.ofRat 0.2) := by
      rw [changeDiff_lt_iff _ _ _ _ _ (sampleSnapshot_3048 2).2.2.2
        (sampleSnapshot_3030 0).2.2.2 changeDiff_3048_3030]
      norm_num
    simp [hc]
  · rw [shouldSendAlert_of_some _ (sampleSnapshot 3045 1) _ _ rfl]
    have hc : Float64.abs (sampleSnapshot 3048 2).Change
        - Float64.abs (sampleSnapshot 3045 1).Change < Float64.ofRat 0.2 := by
      rw [changeDiff_lt_iff _ _ _ _ _ (sampleSnapshot_3048 2).2.2.2
        (sampleSnapshot_3045 1).2.2.2 changeDiff_3048_3045]
      norm_num
    show Except.ok (alertedMonitor.lastAlertTime.IsZero
      || !(decide ((sampleSnapshot 3048 2).Timestamp.nanos - alertedMonitor.lastAlertTime.nanos
              < 5 * Minute)
            && decide (Float64.abs (sampleSnapshot 3048 2).Change
              - Float64.abs (sampleSnapshot 3045 1).Change < Float64.ofRat 0.2)))
      = Except.ok false
    rw [hz]
    simp only [ht, hc, decide_True, Bool.false_or, Bool.true_and, Bool.not_true]

/-- C5 (amended): for a candidate (magnitude at least the threshold) on a tick with a prior
snapshot that passes the time-window gate and the dedup gate, the notifier is invoked
once and the tick returns. If `Send` succeeds, the last-alert time becomes the snapshot's
timestamp, and the next candidate is compared against this alert's time and magnitude.
If `Send` fails, the last-alert time is what it was before the tick, so a monitor that
has not delivered an alert allows the next candidate. In both cases the stored last
snapshot, whose magnitude the dedup gate compares against, becomes the new snapshot. -/
theorem send_outcome_and_dedup_baseline (notifier : Notifier) (now : Clock)
    (m : StockMonitor) (prev data : StockData) (h : m.lastData = some prev)
    (hT : Float64.abs data.Change ≥ m.config.Stock.Threshold)
    (hw : isWithinAlertWindow now = true)
    (hd : shouldSendAlert m data data.Change = .ok true) :
    ∃ m', checkStock (.ok data) notifier now m
        = .ok (m', [Event.sendAlertCall data data.Change,
            Event.notifierSend (alertMessage (withStatistics m data) data data.Change)
              (notifier.Send (alertMessage (withStatistics m data) data data.Change))])
      ∧ m'.lastData = some data
      ∧ (notifier.Send (alertMessage (withStatistics m data) data data.Change) = none →
          m'.lastAlertTime = data.Timestamp
          ∧ ∀ next c, shouldSendAlert m' next c
              = .ok (data.Timestamp.IsZero
                  || !(decide (next.Timestamp.nanos - data.Timestamp.nanos < 5 * Minute)
                        && decide (Float64.abs c - Float64.abs data.Change < Float64.ofRat 0.2))))
      ∧ (notifier.Send (alertMessage (withStatistics m data) data data.Change) ≠ none →
          m'.lastAlertTime = m.lastAlertTime
          ∧ (m.lastAlertTime.IsZero = true → ∀ next c, shouldSendAlert m' next c = .ok true)) := by
  have ha : m.lastAlertTime.IsZero = true
      ∨ ¬ (data.Timestamp.nanos - m.lastAlertTime.nanos < 5 * Minute
            ∧ Float64.abs data.Change - Float64.abs prev.Change < Float64.ofRat 0.2) := by
    rw [shouldSendAlert_of_some m prev data data.Change h] at hd
    injection hd with hd
    by_cases hz : m.lastAlertTime.IsZero = true
    · exact Or.inl hz
    · refine Or.inr (fun hc => ?_)
      simp [hz, hc.1, hc.2] at hd
  cases hs : notifier.Send (alertMessage (withStatistics m data) data data.Change) with
  | none =>
    rw [checkStock_delivered notifier now m prev data h hT hw ha hs]
    refine ⟨_, rfl, rfl, fun _ => ⟨rfl, fun next c => ?_⟩, fun hne => absurd rfl hne⟩
    rw [shouldSendAlert_of_some _ data next c rfl]
  | some err =>
    rw [checkStock_send_failed notifier now m prev data err h hT hw ha hs]
    refine ⟨_, rfl, rfl, (fun hn => by cases hn), fun _ => ⟨rfl, fun hz next c => ?_⟩⟩
    rw [shouldSendAlert_of_some _ data next c rfl]
    have hz2 : ({ withStatistics m data with lastData := some data } :
        StockMonitor).lastAlertTime.IsZero = true := hz
    rw [hz2]
    rfl

theorem send_outcome_and_dedup_baseline_witness :
    ∃ m', checkStock (.ok (sampleSnapshot 3030 1)) failingNotifier (wednesdayAfternoon 1)
          polledMonitor
        = .ok (m', [Event.sendAlertCall (sampleSnapshot 3030 1) (sampleSnapshot 3030 1).Change,
            Event.notifierSend
              (alertMessage (withStatistics polledMonitor (sampleSnapshot 3030 1))
                (sampleSnapshot 3030 1) (sampleSnapshot 3030 1).Change)
              (failingNotifier.Send
                (alertMessage (withStatistics polledMonitor (sampleSnapshot 3030 1))
                  (sampleSnapshot 3030 1) (sampleSnapshot 3030 1).Change))])
      ∧ m'.lastData = some (sampleSnapshot 3030 1)
      ∧ (failingNotifier.Send
            (alertMessage (withStatistics polledMonitor (sampleSnapshot 3030 1))
              (sampleSnapshot 3030 1) (sampleSnapshot 3030 1).Change) = none →
          m'.lastAlertTime = (sampleSnapshot 3030 1).Timestamp
          ∧ ∀ next c, shouldSendAlert m' next c
              = .ok ((sampleSnapshot 3030 1).Timestamp.IsZero
                  || !(decide (next.Timestamp.nanos - (sampleSnapshot 3030 1).Timestamp.nanos
                          < 5 * Minute)
                        && decide (Float64.abs c - Float64.abs (sampleSnapshot 3030 1).Change
                            < Float64.ofRat 0.2))))
      ∧ (failingNotifier.Send
            (alertMessage (withStatistics polledMonitor (sampleSnapshot 3030 1))
              (sampleSnapshot 3030 1) (sampleSnapshot 3030 1).Change) ≠ none →
          m'.lastAlertTime = polledMonitor.lastAlertTime
          ∧ (polledMonitor.lastAlertTime.IsZero = true →
              ∀ next c, shouldSendAlert m' next c = .ok true)) :=
  send_outcome_and_dedup_baseline failingNotifier (wednesdayAfternoon 1) polledMonitor
    (sampleSnapshot 3000 0) (sampleSnapshot 3030 1) rfl
    (threshold_le_of_abs _ _ (sampleSnapshot_3030 1).2.2.2 (by norm_num))
    (by decide) rfl

/-! ## Configuration loading -/

theorem Load_parsed_interval_zero (config : Config) (hcode : config.Stock.Code ≠ "")
    (hurl : config.WeChat.WebhookURL ≠ "") (hint : config.Monitor.Interval = 0) :
    Load (.parsed config) = .error (.validationFailed .nonPositiveInterval) := by
  simp [Load, validateConfig, hcode, hurl, hint]

theorem setDefaults_interval (config : Config) :
    (setDefaults config).Monitor.Interval
      = if config.Monitor.Interval = 0 then 30 * Second else config.Monitor.Interval := by
  unfold setDefaults
  simp only []
  split_ifs <;> first | rfl | (split <;> simp_all)

/-- C8 (the code at the failing input): a document with symbol code `sh000001`, a webhook
URL and no interval is rejected by `Load` with the validation error "interval must be
positive", although `setDefaults`, which `Load` runs only after validation, would give it
the interval of 30 seconds. -/
theorem Load_rejects_missing_interval :
    configWithoutInterval.Stock.Code ≠ ""
      ∧ configWithoutInterval.WeChat.WebhookURL ≠ ""
      ∧ configWithoutInterval.Monitor.Interval = 0
      ∧ Load (.parsed configWithoutInterval)
          = .error (.validationFailed .nonPositiveInterval)
      ∧ (setDefaults configWithoutInterval).Monitor.Interval = 30 * Second := by
  refine ⟨by decide, by decide, rfl, ?_, ?_⟩
  · exact Load_parsed_interval_zero configWithoutInterval (by decide) (by decide) rfl
  · rw [setDefaults_interval]
    rfl

theorem setDefaults_threshold (config : Config) :
    (setDefaults config).Stock.Threshold
      = if config.Stock.Threshold = 0 then Float64.ofRat 0.8 else config.Stock.Threshold := by
  unfold setDefaults
  simp only [Float64.eq_zero_iff]
  split_ifs <;> first | rfl | (split <;> simp_all)

theorem Float64.zero_lt_iff_zero_le (t : Float64) (h : t ≠ 0) : 0 < t ↔ 0 ≤ t := by
  change Float64.lt (Float64.finite 0) t = true ↔ Float64.le (Float64.finite 0) t = true
  cases t with
  | finite q =>
    have hq : q ≠ 0 := fun h0 => h (by rw [h0]; rfl)
    simp only [Float64.lt, Float64.le, decide_eq_true_eq]
    exact ⟨le_of_lt, fun hle => lt_of_le_of_ne hle (Ne.symm hq)⟩
  | inf b => simp [Float64.lt, Float64.le]
  | nan => simp [Float64.lt, Float64.le]

/-- C9 (counterexample): the configuration with threshold `-1` is accepted by
`validateConfig`, `Load` returns it, and its threshold after `setDefaults` is still `-1`,
which is not greater than 0. -/
theorem negative_threshold_counterexample :
    validateConfig configNegativeThreshold = .ok ()
      ∧ Load (.parsed configNegativeThreshold) = .ok (setDefaults configNegativeThreshold)
      ∧ (setDefaults configNegativeThreshold).Stock.Threshold = Float64.finite (-1)
      ∧ ¬ (0 < (setDefaults configNegativeThreshold).Stock.Threshold) := by
  have hv : validateConfig configNegativeThreshold = .ok () := by
    simp [validateConfig, configNegativeThreshold, sampleConfig, Second, Nanosecond]
  have hne : (Float64.finite (-1) : Float64) ≠ 0 := by
    intro h
    have h2 : (Float64.finite (-1) : Float64) = Float64.finite 0 := h
    injection h2 with h3
    norm_num at h3
  have ht : (setDefaults configNegativeThreshold).Stock.Threshold = Float64.finite (-1) := by
    rw [setDefaults_threshold]
    exact if_neg hne
  refine ⟨hv, ?_, ht, ?_⟩
  · simp [Load, hv]
  · rw [ht]
    change ¬ Float64.lt (Float64.finite 0) (Float64.finite (-1)) = true
    simp [Float64.lt]

/-- C9 (amended): for every parsed configuration that `validateConfig` accepts, `Load`
returns `setDefaults` of it, whose threshold is 0.8 when the parsed threshold is 0 and
the parsed threshold otherwise; so it is never 0, and it is greater than 0 exactly when
the parsed threshold is not negative. -/
theorem threshold_after_defaults (config : Config) (h : validateConfig config = .ok ()) :
    Load (.parsed config) = .ok (setDefaults config)
      ∧ (setDefaults config).Stock.Threshold
          = (if config.Stock.Threshold = 0 then Float64.ofRat 0.8
              else config.Stock.Threshold)
      ∧ (setDefaults config).Stock.Threshold ≠ 0
      ∧ (0 < (setDefaults config).Stock.Threshold ↔ 0 ≤ config.Stock.Threshold) := by
  have h08 : (Float64.ofRat 0.8 : Float64) ≠ 0 := by
    rw [Float64.ofRat_0_8]
    intro h
    have h2 : (Float64.finite (3602879701896397 / 4503599627370496) : Float64)
        = Float64.finite 0 := h
    injection h2 with h3
    norm_num at h3
  have hpos : (0 : Float64) < Float64.ofRat 0.8 := by
    rw [Float64.ofRat_0_8]
    exact (Float64.finite_lt _ _).2 (by norm_num)
  refine ⟨by simp [Load, h], setDefaults_threshold config, ?_, ?_⟩
  · rw [setDefaults_threshold]
    split_ifs with h0
    · exact h08
    · exact h0
  · rw [setDefaults_threshold]
    split_ifs with h0
    · rw [h0]
      exact ⟨fun _ => (Float64.finite_le 0 0).2 le_rfl, fun _ => hpos⟩
    · exact Float64.zero_lt_iff_zero_le _ h0

theorem threshold_after_defaults_witness :
    Load (.parsed sampleConfig) = .ok (setDefaults sampleConfig)
      ∧ (setDefaults sampleConfig).Stock.Threshold
          = (if sampleConfig.Stock.Threshold = 0 then Float64.ofRat 0.8
              else sampleConfig.Stock.Threshold)
      ∧ (setDefaults sampleConfig).Stock.Threshold ≠ 0
      ∧ (0 < (setDefaults sampleConfig).Stock.Threshold ↔ 0 ≤ sampleConfig.Stock.Threshold) :=
  threshold_after_defaults sampleConfig
    (by simp [validateConfig, sampleConfig, Second, Nanosecond])

/-! ## Change-percent and its division guard -/

theorem neg_lt_tmod (a : Int) {b : Int} (hb : 0 < b) : -b < a.tmod b := by
  by_cases ha : 0 ≤ a
  · have := Int.tmod_nonneg b ha
    omega
  · have hneg : a.tmod b = -((-a).tmod b) := by
      rw [Int.tmod_def, Int.tmod_def, Int.neg_tdiv]
      ring
    have := Int.tmod_lt_of_pos (-a) hb
    omega

theorem Float64.round64_neg (q : ℚ) :
    Float64.round64 (-q) = Float64.neg (Float64.round64 q) := by
  unfold Float64.round64
  by_cases hq : q = 0
  · simp [hq, Float64.neg]
  · rw [if_neg (neg_ne_zero.2 hq), if_neg hq, abs_neg]
    simp only []
    rcases lt_or_gt_of_ne hq with hlt | hgt
    · have h1 : ¬ (-q < 0) := by linarith
      split_ifs <;> simp [Float64.neg, hlt, h1]
    · have h1 : -q < 0 := by linarith
      have h2 : ¬ q < 0 := by linarith
      split_ifs <;> simp [Float64.neg, h1, h2]

theorem Float64.round64_natCast_pos (m : ℤ) (hpos : 0 < m) (h : m < 2 ^ 53) :
    Float64.round64 (m : ℚ) = Float64.finite (m : ℚ) := by
  have hq : (0 : ℚ) < (m : ℚ) := by exact_mod_cast hpos
  have h1 : (1 : ℚ) ≤ (m : ℚ) := by exact_mod_cast hpos
  have he1 : (2 : ℚ) ^ (Int.log 2 (m : ℚ)) ≤ (m : ℚ) := by
    exact_mod_cast Int.zpow_log_le_self (b := 2) (by norm_num) hq
  have he2 : (m : ℚ) < (2 : ℚ) ^ (Int.log 2 (m : ℚ) + 1) := by
    exact_mod_cast Int.lt_zpow_succ_log_self (b := 2) (by norm_num) (m : ℚ)
  have hlo : 0 ≤ Int.log 2 (m : ℚ) :=
    (Int.zpow_le_iff_le_log (b := 2) (by norm_num) hq).1 (by simpa using h1)
  have hhi : Int.log 2 (m : ℚ) < 53 := by
    refine (Int.lt_zpow_iff_log_lt (b := 2) (by norm_num) hq).1 ?_
    have h53 : (m : ℚ) < (2 : ℚ) ^ (53 : ℕ) := by exact_mod_cast h
    have hz : (2 : ℚ) ^ (53 : ℤ) = (2 : ℚ) ^ (53 : ℕ) := by norm_num
    have : (m : ℚ) < (2 : ℚ) ^ (53 : ℤ) := by rw [hz]; exact h53
    exact_mod_cast this
  obtain ⟨k, hk⟩ : ∃ k : ℕ, (k : ℤ) = 52 - Int.log 2 (m : ℚ) :=
    ⟨(52 - Int.log 2 (m : ℚ)).toNat, Int.toNat_of_nonneg (by omega)⟩
  have hulp : (2 : ℚ) ^ (Int.log 2 (m : ℚ) - 52) = ((2 : ℚ) ^ k)⁻¹ := by
    have : Int.log 2 (m : ℚ) - 52 = -(k : ℤ) := by omega
    rw [this, zpow_neg, zpow_natCast]
  have hpow : (0 : ℚ) < (2 : ℚ) ^ k := pow_pos (by norm_num) k
  have hdiv : (m : ℚ) / (2 : ℚ) ^ (Int.log 2 (m : ℚ) - 52) = ((m * 2 ^ k : ℤ) : ℚ) := by
    rw [hulp]
    push_cast
    field_simp
  refine Float64.round64_of_pos (m : ℚ) (m : ℚ) (Int.log 2 (m : ℚ)) (m * 2 ^ k) he1 he2
    (by omega) ?_ ?_ ?_ ?_
  · rw [hdiv]
    linarith
  · rw [hdiv]
    linarith
  · rw [hulp]
    push_cast
    field_simp
  · have h53 : (m : ℚ) < (2 : ℚ) ^ (53 : ℕ) := by exact_mod_cast h
    have hmono : (2 : ℚ) ^ (53 : ℕ) ≤ (2 : ℚ) ^ (1024 : ℕ) :=
      pow_le_pow_right₀ (by norm_num) (by norm_num)
    linarith

/-- Integers of magnitude below `2 ^ 53` are doubles: rounding leaves them unchanged. -/
theorem Float64.round64_intCast (m : ℤ) (hlo : -(2 ^ 53) < m) (hhi : m < 2 ^ 53) :
    Float64.round64 (m : ℚ) = Float64.finite (m : ℚ) := by
  rcases lt_trichotomy m 0 with hneg | hzero | hpos
  · have h := Float64.round64_natCast_pos (-m) (by omega) (by omega)
    have hcast : ((m : ℤ) : ℚ) = -(((-m : ℤ)) : ℚ) := by push_cast; ring
    rw [hcast, Float64.round64_neg, h]
    simp [Float64.neg]
  · rw [hzero]
    simpa using Float64.round64_zero
  · exact Float64.round64_natCast_pos m hpos hhi

theorem Float64.add_int (a b : ℚ) (x y : ℤ) (ha : a = x) (hb : b = y)
    (hlo : -(2 ^ 53) < x + y) (hhi : x + y < 2 ^ 53) :
    Float64.finite a + Float64.finite b = Float64.finite ((x + y : ℤ) : ℚ) := by
  rw [Float64.finite_add, ha, hb, ← Int.cast_add]
  exact Float64.round64_intCast (x + y) hlo hhi

theorem Float64.sub_int (a b : ℚ) (x y : ℤ) (ha : a = x) (hb : b = y)
    (hlo : -(2 ^ 53) < x - y) (hhi : x - y < 2 ^ 53) :
    Float64.finite a - Float64.finite b = Float64.finite ((x - y : ℤ) : ℚ) := by
  rw [Float64.finite_sub, ha, hb, ← Int.cast_sub]
  exact Float64.round64_intCast (x - y) hlo hhi

/-- The previous close `fetchFromMock` produces is the integer
`3000 + u % 1000 + (minute % 50 - 25) - u' % 20 + 10`, computed without rounding, and it is
at least 1917. -/
theorem fetchFromMock_previous (code : String) (clk : MockClock) :
    ∃ p : ℤ, 1917 ≤ p ∧ (fetchFromMock code clk).Previous = Float64.finite (p : ℚ) := by
  have ha1 := neg_lt_tmod clk.unixBase (by norm_num : (0 : Int) < 1000)
  have ha2 := Int.tmod_lt_of_pos clk.unixBase (by norm_num : (0 : Int) < 1000)
  have hb1 := neg_lt_tmod clk.minute (by norm_num : (0 : Int) < 50)
  have hb2 := Int.tmod_lt_of_pos clk.minute (by norm_num : (0 : Int) < 50)
  have hc1 := neg_lt_tmod clk.unixPrevious (by norm_num : (0 : Int) < 20)
  have hc2 := Int.tmod_lt_of_pos clk.unixPrevious (by norm_num : (0 : Int) < 20)
  have h3000 : Float64.ofRat 3000 = Float64.finite ((3000 : ℤ) : ℚ) := by
    have := Float64.round64_intCast 3000 (by norm_num) (by norm_num)
    simpa [Float64.ofRat] using this
  have h25 : Float64.ofRat 25 = Float64.finite ((25 : ℤ) : ℚ) := by
    have := Float64.round64_intCast 25 (by norm_num) (by norm_num)
    simpa [Float64.ofRat] using this
  have h10 : Float64.ofRat 10 = Float64.finite ((10 : ℤ) : ℚ) := by
    have := Float64.round64_intCast 10 (by norm_num) (by norm_num)
    simpa [Float64.ofRat] using this
  have hA : Float64.ofInt (clk.unixBase.tmod 1000)
      = Float64.finite ((clk.unixBase.tmod 1000 : ℤ) : ℚ) :=
    Float64.round64_intCast _ (by omega) (by omega)
  have hB : Float64.ofInt (clk.minute.tmod 50)
      = Float64.finite ((clk.minute.tmod 50 : ℤ) : ℚ) :=
    Float64.round64_intCast _ (by omega) (by omega)
  have hC : Float64.ofInt (clk.unixPrevious.tmod 20)
      = Float64.finite ((clk.unixPrevious.tmod 20 : ℤ) : ℚ) :=
    Float64.round64_intCast _ (by omega) (by omega)
  refine ⟨3000 + clk.unixBase.tmod 1000 + (clk.minute.tmod 50 - 25)
      - clk.unixPrevious.tmod 20 + 10, by omega, ?_⟩
  show (Float64.ofRat 3000 + Float64.ofInt (clk.unixBase.tmod 1000)
      + (Float64.ofInt (clk.minute.tmod 50) - Float64.ofRat 25))
      - Float64.ofInt (clk.unixPrevious.tmod 20) + Float64.ofRat 10 = _
  rw [h3000, h25, h10, hA, hB, hC,
    Float64.add_int _ _ 3000 (clk.unixBase.tmod 1000) rfl rfl (by omega) (by omega),
    Float64.sub_int _ _ (clk.minute.tmod 50) 25 rfl rfl (by omega) (by omega),
    Float64.add_int _ _ (3000 + clk.unixBase.tmod 1000) (clk.minute.tmod 50 - 25) rfl rfl
      (by omega) (by omega),
    Float64.sub_int _ _ (3000 + clk.unixBase.tmod 1000 + (clk.minute.tmod 50 - 25))
      (clk.unixPrevious.tmod 20) rfl rfl (by omega) (by omega),
    Float64.add_int _ _ (3000 + clk.unixBase.tmod 1000 + (clk.minute.tmod 50 - 25)
      - clk.unixPrevious.tmod 20) 10 rfl rfl (by omega) (by omega)]

theorem fetchFromMock_previous_ne_zero (code : String) (clk : MockClock) :
    (fetchFromMock code clk).Previous ≠ 0 := by
  obtain ⟨p, hp, hprev⟩ := fetchFromMock_previous code clk
  rw [hprev]
  intro h
  have h2 : (Float64.finite (p : ℚ) : Float64) = Float64.finite 0 := h
  injection h2 with h3
  have : p = 0 := by exact_mod_cast h3
  omega


theorem fetchFromSina_of_fields (strconvParseFloat : String → Option Float64) (code : String)
    (fields : List String) (now : Time) (hlen : 6 ≤ fields.length) :
    ∃ data, fetchFromSina strconvParseFloat code (.ok fields) now = .ok (.ok data)
      ∧ calculateChange strconvParseFloat fields = .ok data.Change
      ∧ data.Change = (if data.Previous = 0 then 0
          else ((data.Current - data.Previous) / data.Previous) * Float64.ofRat 100) := by
  match fields, hlen with
  | f0 :: f1 :: f2 :: f3 :: f4 :: f5 :: rest, _ =>
    refine ⟨{ Code := code
              Name := getStockName code
              Current := parseFloat strconvParseFloat f3
              Open := parseFloat strconvParseFloat f1
              High := parseFloat strconvParseFloat f4
              Low := parseFloat strconvParseFloat f5
              Previous := parseFloat strconvParseFloat f2
              Change := (if parseFloat strconvParseFloat f2 = 0 then 0
                else ((parseFloat strconvParseFloat f3 - parseFloat strconvParseFloat f2)
                  / parseFloat strconvParseFloat f2) * Float64.ofRat 100)
              ChangeAmt := parseFloat strconvParseFloat f3 - parseFloat strconvParseFloat f2
              Timestamp := now }, ?_, ?_, rfl⟩
    · by_cases hp : parseFloat strconvParseFloat f2 = 0 <;>
        simp [fetchFromSina, calculateChange, index, hp, Float64.eq_zero_iff]
    · by_cases hp : parseFloat strconvParseFloat f2 = 0 <;>
        simp [calculateChange, index, hp, Float64.eq_zero_iff]

/-- C10: the change-percent is 0 whenever the previous close is 0, and the `float64` value
of `(current - previous) / previous * 100` otherwise. This holds for the snapshot
`fetchFromSina` builds from a reply of at least 6 fields, whose change field is the value
of `calculateChange` on those fields; for `StockData.ChangePercent` of every snapshot; and
for the snapshot of `fetchFromMock`, whose previous close is not 0 for every reading of
the clock, so that its division is never by 0. Whatever the reply, `FetchStockData`
returns a snapshot with this property. -/
theorem change_percent_division_guard (strconvParseFloat : String → Option Float64)
    (code : String) (fields : List String) (now : Time) (s : StockData) (clk : MockClock)
    (reply : Except String (List String)) (hlen : 6 ≤ fields.length) :
    (∃ data, fetchFromSina strconvParseFloat code (.ok fields) now = .ok (.ok data)
      ∧ calculateChange strconvParseFloat fields = .ok data.Change
      ∧ (data.Previous = 0 → data.Change = 0)
      ∧ (data.Previous ≠ 0 →
          data.Change
            = ((data.Current - data.Previous) / data.Previous) * Float64.ofRat 100))
    ∧ ((s.Previous = 0 → s.ChangePercent = 0)
      ∧ (s.Previous ≠ 0 →
          s.ChangePercent = ((s.Current - s.Previous) / s.Previous) * Float64.ofRat 100))
    ∧ ((fetchFromMock code clk).Previous ≠ 0
      ∧ (fetchFromMock code clk).Change
          = (((fetchFromMock code clk).Current - (fetchFromMock code clk).Previous)
              / (fetchFromMock code clk).Previous) * Float64.ofRat 100)
    ∧ (∃ data, FetchStockData strconvParseFloat code reply now clk = .ok (.ok data)
      ∧ (data.Previous = 0 → data.Change = 0)
      ∧ (data.Previous ≠ 0 →
          data.Change
            = ((data.Current - data.Previous) / data.Previous) * Float64.ofRat 100)) := by
  have hmock : (fetchFromMock code clk).Previous ≠ 0 :=
    fetchFromMock_previous_ne_zero code clk
  refine ⟨?_, ⟨?_, ?_⟩, ⟨hmock, rfl⟩, ?_⟩
  · obtain ⟨data, h1, h2, h3⟩ := fetchFromSina_of_fields strconvParseFloat code fields now hlen
    refine ⟨data, h1, h2, fun h0 => ?_, fun h0 => ?_⟩
    · rw [h3, if_pos h0]
    · rw [h3, if_neg h0]
  · intro h0
    unfold StockData.ChangePercent
    rw [if_pos ((Float64.eq_zero_iff _).2 h0)]
  · intro h0
    unfold StockData.ChangePercent
    rw [if_neg (fun h => h0 ((Float64.eq_zero_iff _).1 h))]
  · have hmockcase : ∃ data, Except.ok (ε := Fault) (Except.ok (ε := String)
          (fetchFromMock code clk)) = .ok (.ok data)
        ∧ (data.Previous = 0 → data.Change = 0)
        ∧ (data.Previous ≠ 0 →
            data.Change
              = ((data.Current - data.Previous) / data.Previous) * Float64.ofRat 100) :=
      ⟨_, rfl, fun h0 => absurd h0 hmock, fun _ => rfl⟩
    cases reply with
    | error e => exact hmockcase
    | ok fs =>
      by_cases hl : 6 ≤ fs.length
      · obtain ⟨data, h1, _, h3⟩ := fetchFromSina_of_fields strconvParseFloat code fs now hl
        refine ⟨data, ?_, fun h0 => ?_, fun h0 => ?_⟩
        · simp [FetchStockData, h1]
        · rw [h3, if_pos h0]
        · rw [h3, if_neg h0]
      · have hs : fetchFromSina strconvParseFloat code (.ok fs) now
            = .ok (.error "数据字段不足") := by
          simp [fetchFromSina, not_le.1 hl]
        unfold FetchStockData
        rw [hs]
        exact hmockcase

theorem change_percent_division_guard_witness :
    (∃ data, fetchFromSina sampleParseFloat "sh000001" (.ok sampleFields) ⟨63898000000 * Second⟩
        = .ok (.ok data)
      ∧ calculateChange sampleParseFloat sampleFields = .ok data.Change
      ∧ (data.Previous = 0 → data.Change = 0)
      ∧ (data.Previous ≠ 0 →
          data.Change
            = ((data.Current - data.Previous) / data.Previous) * Float64.ofRat 100))
    ∧ (((sampleSnapshot 3030 0).Previous = 0 → (sampleSnapshot 3030 0).ChangePercent = 0)
      ∧ ((sampleSnapshot 3030 0).Previous ≠ 0 →
          (sampleSnapshot 3030 0).ChangePercent
            = (((sampleSnapshot 3030 0).Current - (sampleSnapshot 3030 0).Previous)
                / (sampleSnapshot 3030 0).Previous) * Float64.ofRat 100))
    ∧ ((fetchFromMock "sh000001" sampleMockClock).Previous ≠ 0
      ∧ (fetchFromMock "sh000001" sampleMockClock).Change
          = (((fetchFromMock "sh000001" sampleMockClock).Current
                - (fetchFromMock "sh000001" sampleMockClock).Previous)
              / (fetchFromMock "sh000001" sampleMockClock).Previous) * Float64.ofRat 100)
    ∧ (∃ data, FetchStockData sampleParseFloat "sh000001" (.error "timeout")
          ⟨63898000000 * Second⟩ sampleMockClock = .ok (.ok data)
      ∧ (data.Previous = 0 → data.Change = 0)
      ∧ (data.Previous ≠ 0 →
          data.Change
            = ((data.Current - data.Previous) / data.Previous) * Float64.ofRat 100)) :=
  change_percent_division_guard sampleParseFloat "sh000001" sampleFields
    ⟨63898000000 * Second⟩ (sampleSnapshot 3030 0) sampleMockClock (.error "timeout")
    (by decide)

/-- The change-percent is rounded as `float64` rounds it: for current 3027 and previous
close 3000 it is the double 0.8999999999999999, not 9/10. For current 1 and previous
close 0 the division without the guard gives an infinity, where the guarded function
gives 0. -/
theorem change_percent_is_rounded :
    (sampleSnapshot 3027 0).ChangePercent
        = Float64.finite (2026619832316723 / 2251799813685248)
      ∧ (2026619832316723 : ℚ) / 2251799813685248 < 9 / 10
      ∧ ((Float64.finite 1 - Float64.finite 0) / Float64.finite 0) * Float64.ofRat 100
          = Float64.inf false
      ∧ calculateChangePercent (Float64.finite 0) (Float64.finite 1) = 0 := by
  have hne : ¬ (Float64.eq (Float64.finite 3000) 0 = true) := by
    rw [Float64.eq_zero_iff]
    intro h
    have h2 : (Float64.finite 3000 : Float64) = Float64.finite 0 := h
    injection h2 with h3
    norm_num at h3
  have hp : (sampleSnapshot 3027 0).Previous = Float64.finite 3000 := rfl
  have hc := (sampleSnapshot_3027 0).2.2.1
  unfold calculateChangePercent at hc
  rw [if_neg hne] at hc
  refine ⟨?_, by norm_num, ?_, ?_⟩
  · unfold StockData.ChangePercent
    rw [hp, if_neg hne]
    exact hc
  · have h1 : Float64.finite 1 - Float64.finite 0 = Float64.finite 1 := by
      rw [Float64.finite_sub]
      have := Float64.round64_intCast 1 (by norm_num) (by norm_num)
      simpa using this
    rw [h1, Float64.ofRat_100]
    show Float64.mul (Float64.div (Float64.finite 1) (Float64.finite 0)) (Float64.finite 100)
      = Float64.inf false
    norm_num [Float64.div, Float64.mul]
  · have h : Float64.eq (Float64.finite 0) 0 = true := (Float64.eq_zero_iff _).2 rfl
    unfold calculateChangePercent
    rw [if_pos h]

/-! ## Running statistics -/

theorem checkStock_statistics (notifier : Notifier) (now : Clock) (m : StockMonitor)
    (prev data : StockData) (h : m.lastData = some prev) :
    ∃ m' events, checkStock (.ok data) notifier now m = .ok (m', events)
      ∧ m'.lastData = some data
      ∧ m'.dayStart = m.dayStart
      ∧ m'.maxChange = Float64.max m.maxChange (absChangeVsOpen m.dayStart data)
      ∧ m'.minChange = Float64.min m.minChange (absChangeVsOpen m.dayStart data) := by
  rw [checkStock_of_some notifier now m prev data h]
  split_ifs
  · cases notifier.Send (alertMessage (withStatistics m data) data data.Change) <;>
      exact ⟨_, _, rfl, rfl, rfl, rfl, rfl⟩
  · exact ⟨_, _, rfl, rfl, rfl, rfl, rfl⟩
  · exact ⟨_, _, rfl, rfl, rfl, rfl, rfl⟩

theorem runTicks_statistics (ticks : List (StockData × Notifier × Clock)) :
    ∀ (m : StockMonitor) (prev : StockData), m.lastData = some prev →
      ∃ m', runTicks m (ticks.map successfulTick) = .ok m'
        ∧ m'.dayStart = m.dayStart
        ∧ m'.maxChange
            = (ticks.map (fun t => absChangeVsOpen m.dayStart t.1)).foldl Float64.max
                m.maxChange
        ∧ m'.minChange
            = (ticks.map (fun t => absChangeVsOpen m.dayStart t.1)).foldl Float64.min
                m.minChange := by
  induction ticks with
  | nil => intro m prev _; exact ⟨m, rfl, rfl, rfl, rfl⟩
  | cons t rest ih =>
    intro m prev h
    obtain ⟨m1, events, hrun, hlast, hday, hmax, hmin⟩ :=
      checkStock_statistics t.2.1 t.2.2 m prev t.1 h
    obtain ⟨m2, hrest, hday2, hmax2, hmin2⟩ := ih m1 t.1 hlast
    refine ⟨m2, ?_, ?_, ?_, ?_⟩
    · simp only [List.map_cons, successfulTick, runTicks, hrun]
      exact hrest
    · rw [hday2, hday]
    · rw [hmax2, hday, hmax]
      rfl
    · rw [hmin2, hday, hmin]
      rfl

theorem Float64.min_zero_of_nonneg (x : Float64) (hx : 0 ≤ x) : Float64.min 0 x = 0 := by
  change Float64.le (Float64.finite 0) x = true at hx
  cases x with
  | finite q =>
    have hq : 0 ≤ q := by simpa [Float64.le] using hx
    show Float64.min (Float64.finite 0) (Float64.finite q) = Float64.finite 0
    rw [Float64.min_finite, min_eq_left hq]
  | inf b =>
    have hb : b = false := by simpa [Float64.le] using hx
    subst hb
    show Float64.min (Float64.finite 0) (Float64.inf false) = Float64.finite 0
    unfold Float64.min
    have hlt : Float64.finite 0 < Float64.inf false := by
      show Float64.lt (Float64.finite 0) (Float64.inf false) = true
      rfl
    simp [hlt]
  | nan => simp [Float64.le] at hx

theorem Float64.max_eq_or (a b : Float64) : Float64.max a b = a ∨ Float64.max a b = b := by
  unfold Float64.max
  split_ifs with h1 h2 h3
  · rcases h1 with h | h
    · exact Or.inl h.symm
    · exact Or.inr h.symm
  · rcases h2 with h | h
    · exact Or.inl h.symm
    · exact Or.inr h.symm
  · exact Or.inl rfl
  · exact Or.inr rfl

theorem Float64.le_max (a b : Float64) (ha : 0 ≤ a) (hb : 0 ≤ b) :
    0 ≤ Float64.max a b ∧ a ≤ Float64.max a b ∧ b ≤ Float64.max a b := by
  change Float64.le (Float64.finite 0) a = true at ha
  change Float64.le (Float64.finite 0) b = true at hb
  cases a with
  | finite p =>
    cases b with
    | finite q =>
      have hp : 0 ≤ p := by simpa [Float64.le] using ha
      rw [Float64.max_finite]
      exact ⟨(Float64.finite_le _ _).2 (le_trans hp (le_max_left p q)),
        (Float64.finite_le _ _).2 (le_max_left p q),
        (Float64.finite_le _ _).2 (le_max_right p q)⟩
    | inf t =>
      have ht : t = false := by simpa [Float64.le] using hb
      subst ht
      have hm : Float64.max (Float64.finite p) (Float64.inf false) = Float64.inf false := by
        simp [Float64.max]
      rw [hm]
      exact ⟨rfl, rfl, rfl⟩
    | nan => simp [Float64.le] at hb
  | inf s =>
    have hs : s = false := by simpa [Float64.le] using ha
    subst hs
    have hm : Float64.max (Float64.inf false) b = Float64.inf false := by
      simp [Float64.max]
    rw [hm]
    refine ⟨rfl, rfl, ?_⟩
    cases b with
    | finite q => rfl
    | inf t =>
      have ht : t = false := by simpa [Float64.le] using hb
      subst ht
      rfl
    | nan => simp [Float64.le] at hb
  | nan => simp [Float64.le] at ha

theorem Float64.le_of_le_of_le {a b c : Float64} (hab : a ≤ b) (hbc : b ≤ c) : a ≤ c := by
  change Float64.le a b = true at hab
  change Float64.le b c = true at hbc
  change Float64.le a c = true
  cases a <;> cases b <;> cases c <;> simp_all [Float64.le]
  · exact hab.trans hbc
  all_goals
    rename_i s t u
    cases s <;> cases t <;> cases u <;> simp_all

theorem Float64.eq_zero_of_le_of_ge (x : Float64) (h1 : x ≤ 0) (h2 : 0 ≤ x) : x = 0 := by
  change Float64.le x (Float64.finite 0) = true at h1
  change Float64.le (Float64.finite 0) x = true at h2
  cases x with
  | finite q =>
    have hq1 : q ≤ 0 := by simpa [Float64.le] using h1
    have hq2 : 0 ≤ q := by simpa [Float64.le] using h2
    show Float64.finite q = Float64.finite 0
    rw [le_antisymm hq1 hq2]
  | inf b => cases b <;> simp [Float64.le] at h1 h2
  | nan => simp [Float64.le] at h1

theorem foldl_min_zero (l : List Float64) (hl : ∀ x ∈ l, (0 : Float64) ≤ x) :
    l.foldl Float64.min 0 = 0 := by
  induction l with
  | nil => rfl
  | cons a rest ih =>
    rw [List.foldl_cons, Float64.min_zero_of_nonneg a (hl a (List.mem_cons_self _ _))]
    exact ih (fun x hx => hl x (List.mem_cons_of_mem _ hx))

theorem le_foldl_max (l : List Float64) :
    ∀ a : Float64, (0 : Float64) ≤ a → (∀ x ∈ l, (0 : Float64) ≤ x) →
      a ≤ l.foldl Float64.max a ∧ ∀ x ∈ l, x ≤ l.foldl Float64.max a := by
  induction l with
  | nil =>
    intro a ha _
    refine ⟨?_, fun x hx => by cases hx⟩
    exact (Float64.le_max a a ha ha).2.1 |> fun h => by
      rcases Float64.max_eq_or a a with h2 | h2 <;> rw [h2] at h <;> exact h
  | cons b rest ih =>
    intro a ha hl
    have hb : (0 : Float64) ≤ b := hl b (List.mem_cons_self _ _)
    obtain ⟨h0, h1, h2⟩ := Float64.le_max a b ha hb
    obtain ⟨h3, h4⟩ := ih (Float64.max a b) h0 (fun x hx => hl x (List.mem_cons_of_mem _ hx))
    refine ⟨Float64.le_of_le_of_le h1 h3, fun x hx => ?_⟩
    rcases List.mem_cons.1 hx with hx | hx
    · rw [hx]
      exact Float64.le_of_le_of_le h2 h3
    · exact h4 x hx

theorem foldl_max_mem (l : List Float64) :
    ∀ a : Float64, l.foldl Float64.max a = a ∨ l.foldl Float64.max a ∈ l := by
  induction l with
  | nil => intro a; exact Or.inl rfl
  | cons b rest ih =>
    intro a
    rw [List.foldl_cons]
    rcases ih (Float64.max a b) with h | h
    · rcases Float64.max_eq_or a b with hc | hc
      · exact Or.inl (by rw [h, hc])
      · exact Or.inr (by rw [h, hc]; exact List.mem_cons_self _ _)
    · exact Or.inr (List.mem_cons_of_mem _ h)

theorem foldl_max_zero_mem (l : List Float64) (hl : ∀ x ∈ l, (0 : Float64) ≤ x)
    (hne : l ≠ []) : l.foldl Float64.max 0 ∈ l := by
  have h00 : (0 : Float64) ≤ 0 := (Float64.finite_le 0 0).2 le_rfl
  rcases foldl_max_mem l 0 with h | h
  · match l, hne, hl, h with
    | a :: rest, _, hl, h =>
      have ha : a ≤ (a :: rest).foldl Float64.max 0 :=
        (le_foldl_max (a :: rest) 0 h00 hl).2 a (List.mem_cons_self _ _)
      rw [h] at ha
      have : a = 0 := Float64.eq_zero_of_le_of_ge a ha (hl a (List.mem_cons_self _ _))
      rw [h, ← this]
      exact List.mem_cons_self _ _
  · exact h

/-- After the first tick and any further successful ticks none of whose `|changeVsOpen|`
is NaN, the day-open baseline is the first snapshot's open value, the running maximum is
at least every `|changeVsOpen|` seen and, when there was a further tick, equal to one of
them, and the running minimum is 0. -/
theorem running_statistics_after_ticks (m : StockMonitor)
    (first : StockData × Notifier × Clock) (ticks : List (StockData × Notifier × Clock))
    (h : m.lastData = none)
    (hnan : ∀ t ∈ ticks, (0 : Float64) ≤ absChangeVsOpen first.1.Open t.1) :
    ∃ m', runTicks m (successfulTick first :: ticks.map successfulTick) = .ok m'
      ∧ m'.dayStart = first.1.Open
      ∧ (∀ t ∈ ticks, absChangeVsOpen first.1.Open t.1 ≤ m'.maxChange)
      ∧ (ticks ≠ [] → ∃ t ∈ ticks, m'.maxChange = absChangeVsOpen first.1.Open t.1)
      ∧ m'.minChange = 0 := by
  have hfirst := checkStock_of_none first.2.1 first.2.2 m first.1 h
  obtain ⟨m', hrun, hday, hmax, hmin⟩ := runTicks_statistics ticks
    { m with dayStart := first.1.Open, lastData := some first.1, maxChange := 0,
             minChange := 0 } first.1 rfl
  have hnonneg : ∀ x ∈ ticks.map (fun t => absChangeVsOpen first.1.Open t.1),
      (0 : Float64) ≤ x := by
    intro x hx
    obtain ⟨t, ht, rfl⟩ := List.mem_map.1 hx
    exact hnan t ht
  have h00 : (0 : Float64) ≤ 0 := (Float64.finite_le 0 0).2 le_rfl
  refine ⟨m', ?_, hday, ?_, ?_, ?_⟩
  · simp only [successfulTick, runTicks, hfirst]
    exact hrun
  · intro t ht
    rw [hmax]
    exact (le_foldl_max _ _ h00 hnonneg).2 _ (List.mem_map.2 ⟨t, ht, rfl⟩)
  · intro hne
    have hmem := foldl_max_zero_mem _ hnonneg (by simpa using hne)
    obtain ⟨t, ht, hteq⟩ := List.mem_map.1 hmem
    exact ⟨t, ht, by rw [hmax]; exact hteq.symm⟩
  · rw [hmin]
    exact foldl_min_zero _ hnonneg


theorem runTicks_cons_ok (m m1 : StockMonitor) (events : List Event)
    (fetched : Except String StockData) (notifier : Notifier) (now : Clock)
    (rest : List (Except String StockData × Notifier × Clock))
    (h : checkStock fetched notifier now m = .ok (m1, events)) :
    runTicks m ((fetched, notifier, now) :: rest) = runTicks m1 rest := by
  simp only [runTicks, h]

/-- C11 (the code at the failing input): the first tick polls a snapshot with open value
3000, and two further ticks poll the current values 3030 and 3060, whose `|changeVsOpen|`
are 1 and 2. The day-open baseline stays 3000 and the running maximum is 2, the largest
value seen, but the running minimum is 0 and not 1, the smallest value seen. -/
theorem running_minimum_stays_zero :
    ∃ m', runTicks (StartFlag (NewStockMonitor sampleConfig))
          [successfulTick (sampleSnapshot 3000 0, okNotifier, wednesdayMorning),
           successfulTick (sampleSnapshot 3030 1, okNotifier, wednesdayMorning),
           successfulTick (sampleSnapshot 3060 2, okNotifier, wednesdayMorning)] = .ok m'
      ∧ m'.dayStart = Float64.finite 3000
      ∧ absChangeVsOpen (Float64.finite 3000) (sampleSnapshot 3030 1) = Float64.finite 1
      ∧ absChangeVsOpen (Float64.finite 3000) (sampleSnapshot 3060 2) = Float64.finite 2
      ∧ m'.maxChange = Float64.finite 2
      ∧ m'.minChange = 0
      ∧ m'.minChange
          ≠ Float64.min (absChangeVsOpen (Float64.finite 3000) (sampleSnapshot 3030 1))
              (absChangeVsOpen (Float64.finite 3000) (sampleSnapshot 3060 2)) := by
  have h1 : absChangeVsOpen (Float64.finite 3000) (sampleSnapshot 3030 1)
      = Float64.finite 1 := by
    unfold absChangeVsOpen
    rw [(sampleSnapshot_3030 1).2.2.1, Float64.abs_finite]
    norm_num
  have h2 : absChangeVsOpen (Float64.finite 3000) (sampleSnapshot 3060 2)
      = Float64.finite 2 := by
    unfold absChangeVsOpen
    rw [(sampleSnapshot_3060 2).2.2.1, Float64.abs_finite]
    norm_num
  have hrun1 := checkStock_of_none okNotifier wednesdayMorning
    (StartFlag (NewStockMonitor sampleConfig)) (sampleSnapshot 3000 0) rfl
  generalize hm1 : ({ StartFlag (NewStockMonitor sampleConfig) with
      dayStart := (sampleSnapshot 3000 0).Open, lastData := some (sampleSnapshot 3000 0),
      maxChange := 0, minChange := 0 } : StockMonitor) = m1 at hrun1
  have hlast1 : m1.lastData = some (sampleSnapshot 3000 0) := by rw [← hm1]
  have hday1' : m1.dayStart = Float64.finite 3000 := by rw [← hm1]; rfl
  have hmax1 : m1.maxChange = 0 := by rw [← hm1]
  have hmin1 : m1.minChange = 0 := by rw [← hm1]
  obtain ⟨m2, ev2, hrun2, hlast2, hday2, hmax2, hmin2⟩ :=
    checkStock_statistics okNotifier wednesdayMorning m1 (sampleSnapshot 3000 0)
      (sampleSnapshot 3030 1) hlast1
  obtain ⟨m3, ev3, hrun3, _, hday3, hmax3, hmin3⟩ :=
    checkStock_statistics okNotifier wednesdayMorning m2 (sampleSnapshot 3030 1)
      (sampleSnapshot 3060 2) hlast2
  have hd2 : m2.dayStart = Float64.finite 3000 := by rw [hday2, hday1']
  have hd3 : m3.dayStart = Float64.finite 3000 := by rw [hday3, hd2]
  have hM2 : m2.maxChange = Float64.finite 1 := by
    rw [hmax2, hday1', hmax1, h1]
    show Float64.max (Float64.finite 0) (Float64.finite 1) = Float64.finite 1
    rw [Float64.max_finite]
    norm_num
  have hm2 : m2.minChange = Float64.finite 0 := by
    rw [hmin2, hday1', hmin1, h1]
    show Float64.min (Float64.finite 0) (Float64.finite 1) = Float64.finite 0
    rw [Float64.min_finite]
    norm_num
  have hM3 : m3.maxChange = Float64.finite 2 := by
    rw [hmax3, hd2, hM2, h2, Float64.max_finite]
    norm_num
  have hm3 : m3.minChange = 0 := by
    rw [hmin3, hd2, hm2, h2, Float64.min_finite]
    norm_num
    rfl
  have hrun : runTicks (StartFlag (NewStockMonitor sampleConfig))
      [successfulTick (sampleSnapshot 3000 0, okNotifier, wednesdayMorning),
       successfulTick (sampleSnapshot 3030 1, okNotifier, wednesdayMorning),
       successfulTick (sampleSnapshot 3060 2, okNotifier, wednesdayMorning)] = .ok m3 :=
    (runTicks_cons_ok _ _ _ _ _ _ _ hrun1).trans
      ((runTicks_cons_ok _ _ _ _ _ _ _ hrun2).trans
        ((runTicks_cons_ok _ _ _ _ _ _ _ hrun3).trans rfl))
  refine ⟨m3, hrun, hd3, h1, h2, hM3, hm3, ?_⟩
  rw [hm3, h1, h2, Float64.min_finite]
  intro h
  have h3 : (Float64.finite 0 : Float64) = Float64.finite (Min.min 1 2) := h
  injection h3 with h4
  norm_num at h4

end StockWatcher
